import Mathlib

/-!
# Maslow firmware, `cnc_ctrl_v1/Settings.cpp`: persistent settings

A shallow embedding of the settings module of the Maslow control firmware
(`settingsInit`, `settingsLoadFromEEprom`, `settingsReset`,
`settingsSaveToEEprom`, `settingsSaveStepstoEEprom`,
`settingsLoadStepsFromEEprom`, `settingsStoreGlobalSetting`) together with the
byte-addressed EEPROM it reads and writes.

Conventions of the embedding:

* the target is the 8-bit AVR the firmware is built for: `byte` and `bool`
  occupy one byte, `int` and `unsigned int` two, `long` and `float` four,
  structs are packed and multi-byte scalars are little-endian;
* a scalar is kept as its object representation (a `float` is its binary32
  bit pattern), so that `EEPROM.put` followed by `EEPROM.get` is a byte copy;
* the globals touched by the module (`sysSettings`, `sysSteps`,
  `systemRtExecAlarm`, `EEPROM`, the three `sys` flags, `kinematics.R`) are the
  fields of one `Machine` state, and every function is a state transformer;
* every EEPROM access, every write of a `sys` flag or of `kinematics.R` and
  every call of a collaborator (`finalizeMachineSettings`,
  `kinematics.recomputeGeometry`, the three axis objects) is appended, in
  program order, to `Machine.trace`.  Collaborators are outside the module and
  are assumed not to touch the state modelled here.
-/

namespace Settings

/-! ## Scalars and their storage image -/

/-- An 8-bit storage cell (`byte`, `uint8_t`). -/
abbrev Byte := Fin 256

/-- A 16-bit scalar (`int`, `unsigned int` on AVR), kept as its bit pattern. -/
abbrev Word := Fin 65536

/-- A 32-bit scalar (`long`, `float` on AVR), kept as its bit pattern. -/
abbrev DWord := Fin 4294967296

/-- A `float`: the IEEE-754 binary32 bit pattern of the value. -/
abbrev F32 := DWord

/-- The low eight bits of a natural number. -/
def byteOf (n : Nat) : Byte := ⟨n % 256, Nat.mod_lt n (by decide)⟩

/-- Little-endian image of a 16-bit scalar. -/
def wordBytes (w : Word) : List Byte := [byteOf w.val, byteOf (w.val / 256)]

/-- Little-endian image of a 32-bit scalar. -/
def dwordBytes (d : DWord) : List Byte :=
  [byteOf d.val, byteOf (d.val / 256), byteOf (d.val / 65536), byteOf (d.val / 16777216)]

/-- Image of a `bool`: `true` is 1, `false` is 0. -/
def boolBytes (b : Bool) : List Byte := [if b then 1 else 0]

/-- The 16-bit scalar with the given little-endian bytes. -/
def wordOf (b0 b1 : Byte) : Word :=
  ⟨b0.val + 256 * b1.val, by have h0 := b0.isLt; have h1 := b1.isLt; omega⟩

/-- The 32-bit scalar with the given little-endian bytes. -/
def dwordOf (b0 b1 b2 b3 : Byte) : DWord :=
  ⟨b0.val + 256 * b1.val + 65536 * b2.val + 16777216 * b3.val, by
    have h0 := b0.isLt; have h1 := b1.isLt; have h2 := b2.isLt; have h3 := b3.isLt; omega⟩

/-- Read one byte off the front of a byte string (0 when exhausted). -/
def takeByte : List Byte → Byte × List Byte
  | b :: rest => (b, rest)
  | [] => (0, [])

/-- Read a `bool` off the front of a byte string: any non-zero byte is `true`.
A cell that holds a byte other than 0 or 1 (which no save of a record assigned
by the module produces) is thus read as `true` and would be written back as 1,
whereas the byte copy of `EEPROM.get` and `EEPROM.put` keeps the byte; no
statement below speaks of the cells of a record re-saved after such a read. -/
def takeBool : List Byte → Bool × List Byte
  | b :: rest => (decide (b ≠ 0), rest)
  | [] => (false, [])

/-- Read a 16-bit scalar off the front of a byte string. -/
def takeWord : List Byte → Word × List Byte
  | b0 :: b1 :: rest => (wordOf b0 b1, rest)
  | _ => (0, [])

/-- Read a 32-bit scalar off the front of a byte string. -/
def takeDWord : List Byte → DWord × List Byte
  | b0 :: b1 :: b2 :: b3 :: rest => (dwordOf b0 b1 b2 b3, rest)
  | _ => (0, [])

/-- A type with a fixed-size object representation, as required of the template
argument of `EEPROM.get` and `EEPROM.put`. -/
class Storable (α : Type) where
  /-- The value of `sizeof(T)`. -/
  size : Nat
  /-- Object representation of a value. -/
  toBytes : α → List Byte
  /-- Value held by an object representation. -/
  ofBytes : List Byte → α

instance : Storable F32 where
  size := 4
  toBytes := dwordBytes
  ofBytes bs := (takeDWord bs).1

/-! ## The EEPROM -/

/-- Content of the EEPROM: the byte held at each address.  All addresses used by
the module lie below 256, inside every AVR EEPROM. -/
abbrev EEPROMClass := Nat → Byte

/-- Write one cell (`EEPROM.update`/`EEPROM.write`). -/
def EEPROMClass.write (e : EEPROMClass) (addr : Nat) (b : Byte) : EEPROMClass :=
  fun i => if i = addr then b else e i

/-- Write a byte string to consecutive cells starting at `addr`. -/
def EEPROMClass.putBytes (e : EEPROMClass) : Nat → List Byte → EEPROMClass
  | _, [] => e
  | addr, b :: bs => EEPROMClass.putBytes (e.write addr b) (addr + 1) bs

/-- Read `n` consecutive cells starting at `addr`. -/
def EEPROMClass.getBytes (e : EEPROMClass) : Nat → Nat → List Byte
  | _, 0 => []
  | addr, n + 1 => e addr :: EEPROMClass.getBytes e (addr + 1) n

/-- The template `EEPROM.put(addr, t)`: copy the object representation of `t` to
the cells `addr .. addr + sizeof(T) - 1`. -/
def EEPROMClass.put {α : Type} [Storable α] (e : EEPROMClass) (addr : Nat) (t : α) :
    EEPROMClass :=
  e.putBytes addr (Storable.toBytes t)

/-- The template `EEPROM.get(addr, t)`: the object whose representation is held
in the cells `addr .. addr + sizeof(T) - 1`. -/
def EEPROMClass.get (α : Type) [Storable α] (e : EEPROMClass) (addr : Nat) : α :=
  Storable.ofBytes (e.getBytes addr (Storable.size α))

/-! ## Records -/

/-- Constants the module takes from headers that are not part of this file.
`SETTINGSVERSION` has the type of the field it is compared with,
`EEPROMVALIDDATA` is a byte, `ALARM_POSITION_LOST` is a bit mask. -/
structure Config where
  /-- The settings schema version of this build. -/
  SETTINGSVERSION : Word
  /-- The marker byte of data written by this firmware. -/
  EEPROMVALIDDATA : Byte
  /-- The position-lost bit of `systemRtExecAlarm`. -/
  ALARM_POSITION_LOST : Nat

/-- Modelled from the spec: the declaration of `settingsVersion_t` is not part of
this file.  Its two members are the ones the module initialises and compares,
in the order of the initialiser `{SETTINGSVERSION, EEPROMVALIDDATA}`: an
integer schema version and a validity byte (3 bytes). -/
structure settingsVersion_t where
  /-- Member `unsigned int settingsVersion`. -/
  settingsVersion : Word
  /-- Member `byte eepromValidData`. -/
  eepromValidData : Byte
  deriving DecidableEq

/-- Object representation of a `settingsVersion_t`. -/
def settingsVersion_t.toBytes (v : settingsVersion_t) : List Byte :=
  wordBytes v.settingsVersion ++ [v.eepromValidData]

/-- The `settingsVersion_t` held by a byte string. -/
def settingsVersion_t.ofBytes (bs : List Byte) : settingsVersion_t :=
  let (settingsVersion, bs) := takeWord bs
  let (eepromValidData, _) := takeByte bs
  { settingsVersion, eepromValidData }

instance : Storable settingsVersion_t where
  size := 3
  toBytes := settingsVersion_t.toBytes
  ofBytes := settingsVersion_t.ofBytes

/-- Modelled from the spec: the declaration of `settingsStepsV1_t` is not part of
this file.  It holds the axis step counters (left, right, z: the triple of the
commented-out `position = {l, r, z, EEPROMVALIDDATA}`) followed by its own
validity byte, the member the loader tests (13 bytes). -/
structure settingsStepsV1_t where
  /-- Member `long lSteps`. -/
  lSteps : DWord
  /-- Member `long rSteps`. -/
  rSteps : DWord
  /-- Member `long zSteps`. -/
  zSteps : DWord
  /-- Member `byte eepromValidData`. -/
  eepromValidData : Byte
  deriving DecidableEq

/-- Object representation of a `settingsStepsV1_t`. -/
def settingsStepsV1_t.toBytes (p : settingsStepsV1_t) : List Byte :=
  dwordBytes p.lSteps ++ dwordBytes p.rSteps ++ dwordBytes p.zSteps ++ [p.eepromValidData]

/-- The `settingsStepsV1_t` held by a byte string. -/
def settingsStepsV1_t.ofBytes (bs : List Byte) : settingsStepsV1_t :=
  let (lSteps, bs) := takeDWord bs
  let (rSteps, bs) := takeDWord bs
  let (zSteps, bs) := takeDWord bs
  let (eepromValidData, _) := takeByte bs
  { lSteps, rSteps, zSteps, eepromValidData }

instance : Storable settingsStepsV1_t where
  size := 13
  toBytes := settingsStepsV1_t.toBytes
  ofBytes := settingsStepsV1_t.ofBytes

/-- The settings record `settings_t`.  Its declaration is not part of this
file; members, their types and their order are those of the aggregate
initialiser in `settingsReset`, which names each member in a comment. -/
structure settings_t where
  /-- Member 0: `float machineWidth`. -/
  machineWidth : F32
  /-- Member 1: `float machineHeight`. -/
  machineHeight : F32
  /-- Member 2: `float distBetweenMotors`. -/
  distBetweenMotors : F32
  /-- Member 3: `float motorOffsetY`. -/
  motorOffsetY : F32
  /-- Member 4: `float sledWidth`. -/
  sledWidth : F32
  /-- Member 5: `float sledHeight`. -/
  sledHeight : F32
  /-- Member 6: `float sledCG`. -/
  sledCG : F32
  /-- Member 7: `byte kinematicsType`. -/
  kinematicsType : Byte
  /-- Member 8: `float rotationDiskRadius`. -/
  rotationDiskRadius : F32
  /-- Member 9: `int axisHoldTime`. -/
  axisHoldTime : Word
  /-- Member 10: `int kinematicsMaxGuess`. -/
  kinematicsMaxGuess : Word
  /-- Member 11: `int originalChainLength`. -/
  originalChainLength : Word
  /-- Member 12: `float encoderSteps`. -/
  encoderSteps : F32
  /-- Member 13: `byte gearTeeth`. -/
  gearTeeth : Byte
  /-- Member 14: `float chainPitch`. -/
  chainPitch : F32
  /-- Member 15: `int maxFeed`. -/
  maxFeed : Word
  /-- Member 16: `bool zAxisAttached`. -/
  zAxisAttached : Bool
  /-- Member 17: `bool zAxisAuto`. -/
  zAxisAuto : Bool
  /-- Member 18: `float maxZRPM`. -/
  maxZRPM : F32
  /-- Member 19: `float zDistPerRot`. -/
  zDistPerRot : F32
  /-- Member 20: `float zEncoderSteps`. -/
  zEncoderSteps : F32
  /-- Member 21: `float KpPos`. -/
  KpPos : F32
  /-- Member 22: `float KiPos`. -/
  KiPos : F32
  /-- Member 23: `float KdPos`. -/
  KdPos : F32
  /-- Member 24: `float propWeightPos`. -/
  propWeightPos : F32
  /-- Member 25: `float KpV`. -/
  KpV : F32
  /-- Member 26: `float KiV`. -/
  KiV : F32
  /-- Member 27: `float KdV`. -/
  KdV : F32
  /-- Member 28: `float propWeightV`. -/
  propWeightV : F32
  /-- Member 29: `float zKpPos`. -/
  zKpPos : F32
  /-- Member 30: `float zKiPos`. -/
  zKiPos : F32
  /-- Member 31: `float zKdPos`. -/
  zKdPos : F32
  /-- Member 32: `float zPropWeightPos`. -/
  zPropWeightPos : F32
  /-- Member 33: `float zKpV`. -/
  zKpV : F32
  /-- Member 34: `float zKiV`. -/
  zKiV : F32
  /-- Member 35: `float zKdV`. -/
  zKdV : F32
  /-- Member 36: `float zPropWeightV`. -/
  zPropWeightV : F32
  /-- Member 37: `byte eepromValidData`. -/
  eepromValidData : Byte
  deriving DecidableEq

/-- Object representation of a `settings_t`: the members in declaration order,
packed (129 bytes). -/
def settings_t.toBytes (s : settings_t) : List Byte :=
  dwordBytes s.machineWidth ++
  dwordBytes s.machineHeight ++
  dwordBytes s.distBetweenMotors ++
  dwordBytes s.motorOffsetY ++
  dwordBytes s.sledWidth ++
  dwordBytes s.sledHeight ++
  dwordBytes s.sledCG ++
  [s.kinematicsType] ++
  dwordBytes s.rotationDiskRadius ++
  wordBytes s.axisHoldTime ++
  wordBytes s.kinematicsMaxGuess ++
  wordBytes s.originalChainLength ++
  dwordBytes s.encoderSteps ++
  [s.gearTeeth] ++
  dwordBytes s.chainPitch ++
  wordBytes s.maxFeed ++
  boolBytes s.zAxisAttached ++
  boolBytes s.zAxisAuto ++
  dwordBytes s.maxZRPM ++
  dwordBytes s.zDistPerRot ++
  dwordBytes s.zEncoderSteps ++
  dwordBytes s.KpPos ++
  dwordBytes s.KiPos ++
  dwordBytes s.KdPos ++
  dwordBytes s.propWeightPos ++
  dwordBytes s.KpV ++
  dwordBytes s.KiV ++
  dwordBytes s.KdV ++
  dwordBytes s.propWeightV ++
  dwordBytes s.zKpPos ++
  dwordBytes s.zKiPos ++
  dwordBytes s.zKdPos ++
  dwordBytes s.zPropWeightPos ++
  dwordBytes s.zKpV ++
  dwordBytes s.zKiV ++
  dwordBytes s.zKdV ++
  dwordBytes s.zPropWeightV ++
  [s.eepromValidData]

/-- The `settings_t` held by a byte string. -/
def settings_t.ofBytes (bs : List Byte) : settings_t :=
  let (machineWidth, bs) := takeDWord bs
  let (machineHeight, bs) := takeDWord bs
  let (distBetweenMotors, bs) := takeDWord bs
  let (motorOffsetY, bs) := takeDWord bs
  let (sledWidth, bs) := takeDWord bs
  let (sledHeight, bs) := takeDWord bs
  let (sledCG, bs) := takeDWord bs
  let (kinematicsType, bs) := takeByte bs
  let (rotationDiskRadius, bs) := takeDWord bs
  let (axisHoldTime, bs) := takeWord bs
  let (kinematicsMaxGuess, bs) := takeWord bs
  let (originalChainLength, bs) := takeWord bs
  let (encoderSteps, bs) := takeDWord bs
  let (gearTeeth, bs) := takeByte bs
  let (chainPitch, bs) := takeDWord bs
  let (maxFeed, bs) := takeWord bs
  let (zAxisAttached, bs) := takeBool bs
  let (zAxisAuto, bs) := takeBool bs
  let (maxZRPM, bs) := takeDWord bs
  let (zDistPerRot, bs) := takeDWord bs
  let (zEncoderSteps, bs) := takeDWord bs
  let (KpPos, bs) := takeDWord bs
  let (KiPos, bs) := takeDWord bs
  let (KdPos, bs) := takeDWord bs
  let (propWeightPos, bs) := takeDWord bs
  let (KpV, bs) := takeDWord bs
  let (KiV, bs) := takeDWord bs
  let (KdV, bs) := takeDWord bs
  let (propWeightV, bs) := takeDWord bs
  let (zKpPos, bs) := takeDWord bs
  let (zKiPos, bs) := takeDWord bs
  let (zKdPos, bs) := takeDWord bs
  let (zPropWeightPos, bs) := takeDWord bs
  let (zKpV, bs) := takeDWord bs
  let (zKiV, bs) := takeDWord bs
  let (zKdV, bs) := takeDWord bs
  let (zPropWeightV, bs) := takeDWord bs
  let (eepromValidData, _) := takeByte bs
  { machineWidth, machineHeight, distBetweenMotors, motorOffsetY, sledWidth, sledHeight,
    sledCG, kinematicsType, rotationDiskRadius, axisHoldTime, kinematicsMaxGuess,
    originalChainLength, encoderSteps, gearTeeth, chainPitch, maxFeed, zAxisAttached,
    zAxisAuto, maxZRPM, zDistPerRot, zEncoderSteps, KpPos, KiPos, KdPos, propWeightPos,
    KpV, KiV, KdV, propWeightV, zKpPos, zKiPos, zKdPos, zPropWeightPos, zKpV, zKiV, zKdV,
    zPropWeightV, eepromValidData }

instance : Storable settings_t where
  size := 129
  toBytes := settings_t.toBytes
  ofBytes := settings_t.ofBytes

/-- The aggregate initialiser of `settingsReset`: the default settings.  Float
literals are given as the binary32 pattern nearest to the decimal literal. -/
def defaultSettings (k : Config) : settings_t where
  machineWidth := 0x45186666  -- 2438.4
  machineHeight := 0x44986666  -- 1219.2
  distBetweenMotors := 0x453a2666  -- 2978.4
  motorOffsetY := 0x43e78000  -- 463.0
  sledWidth := 0x439b0000  -- 310.0
  sledHeight := 0x430b0000  -- 139.0
  sledCG := 0x429e0000  -- 79.0
  kinematicsType := 1
  rotationDiskRadius := 0x42c80000  -- 100.0
  axisHoldTime := 2000
  kinematicsMaxGuess := 200
  originalChainLength := 1650
  encoderSteps := 0x45fd8d9a  -- 8113.7
  gearTeeth := 10
  chainPitch := 0x40cb3333  -- 6.35
  maxFeed := 1000
  zAxisAttached := true
  zAxisAuto := false
  maxZRPM := 0x4149999a  -- 12.60
  zDistPerRot := 0x404ae148  -- 3.17
  zEncoderSteps := 0x45ec4000  -- 7560.0
  KpPos := 0x44a28000  -- 1300.0
  KiPos := 0x00000000  -- 0.0
  KdPos := 0x42080000  -- 34.0
  propWeightPos := 0x3f800000  -- 1.0
  KpV := 0x40e00000  -- 7.0
  KiV := 0x00000000  -- 0.0
  KdV := 0x3e8f5c29  -- 0.28
  propWeightV := 0x3f800000  -- 1.0
  zKpPos := 0x44a28000  -- 1300.0
  zKiPos := 0x00000000  -- 0.0
  zKdPos := 0x42080000  -- 34.0
  zPropWeightPos := 0x3f800000  -- 1.0
  zKpV := 0x40e00000  -- 7.0
  zKiV := 0x00000000  -- 0.0
  zKdV := 0x3e8f5c29  -- 0.28
  zPropWeightV := 0x3f800000  -- 1.0
  eepromValidData := k.EEPROMVALIDDATA

/-- A member value of `settings_t`, tagged with the member's type. -/
inductive FieldVal where
  | float (x : F32)
  | byte (b : Byte)
  | int (w : Word)
  | bool (b : Bool)
  deriving DecidableEq

/-- The members of a settings record in the declaration order of `settings_t`,
each tagged with its type (position 0 is `machineWidth`, position 37 is the
trailing `eepromValidData`). -/
def settings_t.fields (s : settings_t) : List FieldVal :=
  [.float s.machineWidth,
   .float s.machineHeight,
   .float s.distBetweenMotors,
   .float s.motorOffsetY,
   .float s.sledWidth,
   .float s.sledHeight,
   .float s.sledCG,
   .byte s.kinematicsType,
   .float s.rotationDiskRadius,
   .int s.axisHoldTime,
   .int s.kinematicsMaxGuess,
   .int s.originalChainLength,
   .float s.encoderSteps,
   .byte s.gearTeeth,
   .float s.chainPitch,
   .int s.maxFeed,
   .bool s.zAxisAttached,
   .bool s.zAxisAuto,
   .float s.maxZRPM,
   .float s.zDistPerRot,
   .float s.zEncoderSteps,
   .float s.KpPos,
   .float s.KiPos,
   .float s.KdPos,
   .float s.propWeightPos,
   .float s.KpV,
   .float s.KiV,
   .float s.KdV,
   .float s.propWeightV,
   .float s.zKpPos,
   .float s.zKiPos,
   .float s.zKdPos,
   .float s.zPropWeightPos,
   .float s.zKpV,
   .float s.zKiV,
   .float s.zKdV,
   .float s.zPropWeightV,
   .byte s.eepromValidData]

/-- The member at a position of the declaration order of `settings_t`, if there
is one. -/
def settings_t.field (s : settings_t) (j : Nat) : Option FieldVal :=
  s.fields[j]?

/-! ## Conversions and arithmetic on `float` -/

/-- The target's `float` conversions and arithmetic used by the dispatcher.  They
are left uninterpreted: every statement below holds for whatever the compiler
and its soft-float library compute (a conversion of an out-of-range value is
not defined by the language). -/
structure FloatOps where
  /-- Conversion `float` to `byte` (assignment to a `byte` member). -/
  toByte : F32 → Byte
  /-- Conversion `float` to `int` (assignment to an `int` member). -/
  toInt : F32 → Word
  /-- Conversion of a promoted `byte` operand to `float`. -/
  ofByte : Byte → F32
  /-- Floating multiplication. -/
  mul : F32 → F32 → F32
  /-- Floating division. -/
  div : F32 → F32 → F32
  /-- Value of the constant expression `(2.0 * 3.14159)`. -/
  twoPi : F32

/-- Conversion `float` to `bool`: `true` unless the value is `+0.0` or `-0.0`. -/
def floatToBool (x : F32) : Bool := decide (x.val % 2147483648 ≠ 0)

/-- The assignment `member = value` to a member of `settings_t` holding `old`:
`value` is converted to the member's type. -/
def FieldVal.assign (A : FloatOps) (value : F32) (old : FieldVal) : FieldVal :=
  match old with
  | .float _ => .float value
  | .byte _ => .byte (A.toByte value)
  | .int _ => .int (A.toInt value)
  | .bool _ => .bool (floatToBool value)

/-! ## Machine state and trace -/

/-- The three axis objects. -/
inductive Axis where
  | leftAxis
  | rightAxis
  | zAxis
  deriving DecidableEq

/-- The members of `sys` written by the module. -/
inductive SysFlag where
  | rcvdKinematicSettings
  | encoderStepsChanged
  | zEncoderStepsChanged
  deriving DecidableEq

/-- An interaction of the module with something outside its own two records. -/
inductive Effect where
  /-- Call `EEPROM.get(addr, t)` with `sizeof(t) = size`. -/
  | eepromGet (addr size : Nat)
  /-- Call `EEPROM.read(addr)`. -/
  | eepromRead (addr : Nat)
  /-- Call `EEPROM.put(addr, t)` with `sizeof(t) = size`. -/
  | eepromPut (addr size : Nat)
  /-- Assignment to a member of `sys`. -/
  | sysWrite (flag : SysFlag)
  /-- Assignment `kinematics.R = value`. -/
  | kinematicsR (value : F32)
  /-- Call `finalizeMachineSettings()`. -/
  | finalizeMachineSettings
  /-- Call `kinematics.recomputeGeometry()`. -/
  | recomputeGeometry
  /-- Call `axis.changeEncoderResolution(steps)`. -/
  | changeEncoderResolution (axis : Axis) (steps : F32)
  /-- Call `axis.changePitch(pitch)`. -/
  | changePitch (axis : Axis) (pitch : F32)
  /-- Call `axis.setPIDValues(...)` with its eight arguments in order. -/
  | setPIDValues (axis : Axis) (KpPos KiPos KdPos propWeightPos KpV KiV KdV propWeightV : F32)
  deriving DecidableEq

/-- The members of the global `sys` written by the module. -/
structure system_t where
  /-- Member `sys.rcvdKinematicSettings`. -/
  rcvdKinematicSettings : Nat
  /-- Member `sys.encoderStepsChanged`. -/
  encoderStepsChanged : Bool
  /-- Member `sys.zEncoderStepsChanged`. -/
  zEncoderStepsChanged : Bool
  deriving DecidableEq

/-- The state the module reads and writes. -/
structure Machine where
  /-- Global `sysSettings`. -/
  sysSettings : settings_t
  /-- Global `sysSteps`. -/
  sysSteps : settingsStepsV1_t
  /-- Global `systemRtExecAlarm`, a set of alarm bits. -/
  systemRtExecAlarm : Nat
  /-- Content of the EEPROM. -/
  EEPROM : EEPROMClass
  /-- Global `sys`. -/
  sys : system_t
  /-- Member `kinematics.R`. -/
  kinematics_R : F32
  /-- Interactions so far, oldest first. -/
  trace : List Effect

/-- Append an interaction to the trace. -/
def Machine.log (m : Machine) (e : Effect) : Machine :=
  { m with trace := m.trace ++ [e] }

/-- Statement `EEPROM.get(addr, t)`: the object read and the machine after the call. -/
def Machine.eepromGet (α : Type) [Storable α] (addr : Nat) (m : Machine) : α × Machine :=
  (m.EEPROM.get α addr, m.log (.eepromGet addr (Storable.size α)))

/-- Expression `EEPROM.read(addr)`: the byte read and the machine after the call. -/
def Machine.eepromRead (addr : Nat) (m : Machine) : Byte × Machine :=
  (m.EEPROM addr, m.log (.eepromRead addr))

/-- Statement `EEPROM.put(addr, t)`. -/
def Machine.eepromPut {α : Type} [Storable α] (addr : Nat) (t : α) (m : Machine) : Machine :=
  { m with
    EEPROM := m.EEPROM.put addr t
    trace := m.trace ++ [.eepromPut addr (Storable.size α)] }

/-- Statement `systemRtExecAlarm |= ALARM_POSITION_LOST`. -/
def Machine.raisePositionLost (k : Config) (m : Machine) : Machine :=
  { m with systemRtExecAlarm := m.systemRtExecAlarm ||| k.ALARM_POSITION_LOST }

/-- The return codes of `settingsStoreGlobalSetting`, two distinct byte constants
defined outside this file. -/
inductive Status where
  | STATUS_OK
  | STATUS_INVALID_STATEMENT
  deriving DecidableEq

/-! ## The functions of `Settings.cpp` -/

/-- Function `settingsReset`: assign the default record to `sysSettings`. -/
def settingsReset (k : Config) (m : Machine) : Machine :=
  { m with sysSettings := defaultSettings k }

/-- The test `settingsVersion == SETTINGSVERSION && eepromValidData == EEPROMVALIDDATA`
on a version record. -/
def versionValid (k : Config) (v : settingsVersion_t) : Bool :=
  decide (v.settingsVersion = k.SETTINGSVERSION) &&
    decide (v.eepromValidData = k.EEPROMVALIDDATA)

/-- Function `settingsLoadFromEEprom`. -/
def settingsLoadFromEEprom (k : Config) (m : Machine) : Machine :=
  let m := settingsReset k m
  let (settingsVersionStruct, m) := m.eepromGet settingsVersion_t 0
  if versionValid k settingsVersionStruct then
    let (stored, m) := m.eepromGet settings_t 40
    { m with sysSettings := stored }
  else m

/-- Function `settingsSaveToEEprom`. -/
def settingsSaveToEEprom (k : Config) (m : Machine) : Machine :=
  let settingsVersionStruct : settingsVersion_t := ⟨k.SETTINGSVERSION, k.EEPROMVALIDDATA⟩
  let m := m.eepromPut 0 settingsVersionStruct
  m.eepromPut 40 m.sysSettings

/-- Function `settingsSaveStepstoEEprom`. -/
def settingsSaveStepstoEEprom (k : Config) (m : Machine) : Machine :=
  let settingsVersionStruct : settingsVersion_t := ⟨k.SETTINGSVERSION, k.EEPROMVALIDDATA⟩
  let m := m.eepromPut 0 settingsVersionStruct
  m.eepromPut 10 m.sysSteps

/-- The condition of the `else if` of `settingsLoadStepsFromEEprom`,
`EEPROM.read(5) == EEPROMVALIDDATA && EEPROM.read(105) == EEPROMVALIDDATA &&
EEPROM.read(205) == EEPROMVALIDDATA`, evaluated left to right with the
short-circuit of `&&`. -/
def legacyMarkersPresent (k : Config) (m : Machine) : Bool × Machine :=
  let (b, m) := m.eepromRead 5
  if b = k.EEPROMVALIDDATA then
    let (b, m) := m.eepromRead 105
    if b = k.EEPROMVALIDDATA then
      let (b, m) := m.eepromRead 205
      (decide (b = k.EEPROMVALIDDATA), m)
    else (false, m)
  else (false, m)

/-- Function `settingsLoadStepsFromEEprom`.  The legacy branch reads the three
floats `l`, `r`, `z` and uses none of them (the assignment of the position is
commented out in the source). -/
def settingsLoadStepsFromEEprom (k : Config) (m : Machine) : Machine :=
  let m := settingsReset k m
  let (settingsVersionStruct, m) := m.eepromGet settingsVersion_t 0
  if versionValid k settingsVersionStruct then
    let (tempStepsV1, m) := m.eepromGet settingsStepsV1_t 10
    if tempStepsV1.eepromValidData = k.EEPROMVALIDDATA then
      { m with sysSteps := tempStepsV1 }
    else
      m.raisePositionLost k
  else
    let (legacy, m) := legacyMarkersPresent k m
    if legacy then
      let (_, m) := m.eepromGet F32 9
      let (_, m) := m.eepromGet F32 109
      let (_, m) := m.eepromGet F32 209
      m
    else
      m.raisePositionLost k

/-- Function `settingsInit`. -/
def settingsInit (k : Config) (m : Machine) : Machine :=
  settingsLoadStepsFromEEprom k (settingsLoadFromEEprom k m)

/-- The inner `switch` of cases 0 to 5. -/
def geometrySwitch (parameter : Nat) (value : F32) (s : settings_t) : settings_t :=
  match parameter with
  | 0 => { s with machineWidth := value }
  | 1 => { s with machineHeight := value }
  | 2 => { s with distBetweenMotors := value }
  | 3 => { s with motorOffsetY := value }
  | 4 => { s with sledWidth := value }
  | 5 => { s with sledHeight := value }
  | _ => s

/-- The inner `switch` of cases 21 to 28. -/
def pidSwitch (parameter : Nat) (value : F32) (s : settings_t) : settings_t :=
  match parameter with
  | 21 => { s with KpPos := value }
  | 22 => { s with KiPos := value }
  | 23 => { s with KdPos := value }
  | 24 => { s with propWeightPos := value }
  | 25 => { s with KpV := value }
  | 26 => { s with KiV := value }
  | 27 => { s with KdV := value }
  | 28 => { s with propWeightV := value }
  | _ => s

/-- The inner `switch` of cases 29 to 36. -/
def zPidSwitch (parameter : Nat) (value : F32) (s : settings_t) : settings_t :=
  match parameter with
  | 29 => { s with zKpPos := value }
  | 30 => { s with zKiPos := value }
  | 31 => { s with zKdPos := value }
  | 32 => { s with zPropWeightPos := value }
  | 33 => { s with zKpV := value }
  | 34 => { s with zKiV := value }
  | 35 => { s with zKdV := value }
  | 36 => { s with zPropWeightV := value }
  | _ => s

/-- The outer `switch` of `settingsStoreGlobalSetting`: the machine after the
selected case, or `none` when the `default` case returns. -/
def settingsSwitch (A : FloatOps) (parameter : Byte) (value : F32) (m : Machine) :
    Option Machine :=
  match parameter.val with
  | 0 | 1 | 2 | 3 | 4 | 5 =>
    let m := { m with sysSettings := geometrySwitch parameter.val value m.sysSettings }
    let m := { m.log (.sysWrite .rcvdKinematicSettings) with sys.rcvdKinematicSettings := 1 }
    let m := m.log .finalizeMachineSettings
    let m := m.log .recomputeGeometry
    some m
  | 6 => some { m with sysSettings.sledCG := value }
  | 7 => some { m with sysSettings.kinematicsType := A.toByte value }
  | 8 => some { m with sysSettings.rotationDiskRadius := value }
  | 9 => some { m with sysSettings.axisHoldTime := A.toInt value }
  | 10 => some { m with sysSettings.kinematicsMaxGuess := A.toInt value }
  | 11 => some { m with sysSettings.originalChainLength := A.toInt value }
  | 12 =>
    let m := { m with sysSettings.encoderSteps := value }
    let m := m.log (.changeEncoderResolution .leftAxis m.sysSettings.encoderSteps)
    let m := m.log (.changeEncoderResolution .rightAxis m.sysSettings.encoderSteps)
    let m := { m.log (.sysWrite .encoderStepsChanged) with sys.encoderStepsChanged := true }
    some m
  | 13 =>
    let m := { m with sysSettings.gearTeeth := A.toByte value }
    let m := m.log (.changePitch .leftAxis
      (A.mul (A.ofByte m.sysSettings.gearTeeth) m.sysSettings.chainPitch))
    let m := m.log (.changePitch .rightAxis
      (A.mul (A.ofByte m.sysSettings.gearTeeth) m.sysSettings.chainPitch))
    let R := A.div (A.mul (A.ofByte m.sysSettings.gearTeeth) m.sysSettings.chainPitch) A.twoPi
    let m := { m.log (.kinematicsR R) with kinematics_R := R }
    some m
  | 14 =>
    let m := { m with sysSettings.chainPitch := value }
    let m := m.log (.changePitch .leftAxis
      (A.mul (A.ofByte m.sysSettings.gearTeeth) m.sysSettings.chainPitch))
    let m := m.log (.changePitch .rightAxis
      (A.mul (A.ofByte m.sysSettings.gearTeeth) m.sysSettings.chainPitch))
    let R := A.div (A.mul (A.ofByte m.sysSettings.gearTeeth) m.sysSettings.chainPitch) A.twoPi
    let m := { m.log (.kinematicsR R) with kinematics_R := R }
    some m
  | 15 => some { m with sysSettings.maxFeed := A.toInt value }
  | 16 => some { m with sysSettings.zAxisAttached := floatToBool value }
  | 17 => some { m with sysSettings.zAxisAuto := floatToBool value }
  | 18 => some { m with sysSettings.maxZRPM := value }
  | 19 =>
    let m := { m with sysSettings.zDistPerRot := value }
    let m := m.log (.changePitch .zAxis m.sysSettings.zDistPerRot)
    some m
  | 20 =>
    let m := { m with sysSettings.zEncoderSteps := value }
    let m := m.log (.changeEncoderResolution .zAxis m.sysSettings.zEncoderSteps)
    let m := { m.log (.sysWrite .zEncoderStepsChanged) with sys.zEncoderStepsChanged := true }
    some m
  | 21 | 22 | 23 | 24 | 25 | 26 | 27 | 28 =>
    let m := { m with sysSettings := pidSwitch parameter.val value m.sysSettings }
    let m := m.log (.setPIDValues .leftAxis
      m.sysSettings.KpPos m.sysSettings.KiPos m.sysSettings.KdPos m.sysSettings.propWeightPos
      m.sysSettings.KpV m.sysSettings.KiV m.sysSettings.KdV m.sysSettings.propWeightV)
    let m := m.log (.setPIDValues .rightAxis
      m.sysSettings.KpPos m.sysSettings.KiPos m.sysSettings.KdPos m.sysSettings.propWeightPos
      m.sysSettings.KpV m.sysSettings.KiV m.sysSettings.KdV m.sysSettings.propWeightV)
    some m
  | 29 | 30 | 31 | 32 | 33 | 34 | 35 | 36 =>
    let m := { m with sysSettings := zPidSwitch parameter.val value m.sysSettings }
    let m := m.log (.setPIDValues .zAxis
      m.sysSettings.zKpPos m.sysSettings.zKiPos m.sysSettings.zKdPos m.sysSettings.zPropWeightPos
      m.sysSettings.zKpV m.sysSettings.zKiV m.sysSettings.zKdV m.sysSettings.zPropWeightV)
    some m
  | _ => none

/-- Function `settingsStoreGlobalSetting`: the `switch`, then, unless the
`default` case returned `STATUS_INVALID_STATEMENT`, `settingsSaveToEEprom()` and
`return(STATUS_OK)`. -/
def settingsStoreGlobalSetting (k : Config) (A : FloatOps) (parameter : Byte) (value : F32)
    (m : Machine) : Status × Machine :=
  match settingsSwitch A parameter value m with
  | none => (.STATUS_INVALID_STATEMENT, m)
  | some m => (.STATUS_OK, settingsSaveToEEprom k m)

/-! ## Notions used in the statements -/

/-- The laws of an object representation: it has the declared size and is read
back unchanged. -/
def Storable.Lawful (α : Type) [Storable α] : Prop :=
  (∀ x : α, (Storable.toBytes x).length = Storable.size α) ∧
    ∀ x : α, Storable.ofBytes (Storable.toBytes x) = x

/-- The interactions performed between two states of one run: the part of the
later trace that follows the earlier one. -/
def newTrace (before after : Machine) : List Effect :=
  after.trace.drop before.trace.length

/-- The calls `leftAxis.setPIDValues(...)` and `rightAxis.setPIDValues(...)`, in
this order, with the same eight arguments. -/
def pidPush (KpPos KiPos KdPos propWeightPos KpV KiV KdV propWeightV : F32) : List Effect :=
  [.setPIDValues .leftAxis KpPos KiPos KdPos propWeightPos KpV KiV KdV propWeightV,
   .setPIDValues .rightAxis KpPos KiPos KdPos propWeightPos KpV KiV KdV propWeightV]

/-- The push of the horizontal PID tuple of a settings record to both horizontal
axes. -/
def horizontalPush (s : settings_t) : List Effect :=
  pidPush s.KpPos s.KiPos s.KdPos s.propWeightPos s.KpV s.KiV s.KdV s.propWeightV

/-- A call of one of the functions of the module, with its arguments. -/
inductive Operation where
  /-- Call `settingsInit()`. -/
  | init
  /-- Call `settingsLoadFromEEprom()`. -/
  | load
  /-- Call `settingsReset()`. -/
  | reset
  /-- Call `settingsSaveToEEprom()`. -/
  | save
  /-- Call `settingsSaveStepstoEEprom()`. -/
  | saveSteps
  /-- Call `settingsLoadStepsFromEEprom()`. -/
  | loadSteps
  /-- Call `settingsStoreGlobalSetting(parameter, value)`. -/
  | store (parameter : Byte) (value : F32)
  deriving DecidableEq

/-- The machine after one call. -/
def Operation.run (k : Config) (A : FloatOps) (op : Operation) (m : Machine) : Machine :=
  match op with
  | .init => settingsInit k m
  | .load => settingsLoadFromEEprom k m
  | .reset => settingsReset k m
  | .save => settingsSaveToEEprom k m
  | .saveSteps => settingsSaveStepstoEEprom k m
  | .loadSteps => settingsLoadStepsFromEEprom k m
  | .store parameter value => (settingsStoreGlobalSetting k A parameter value m).2

/-- The machine after a sequence of calls, first to last. -/
def runAll (k : Config) (A : FloatOps) : List Operation → Machine → Machine
  | [], m => m
  | op :: ops, m => runAll k A ops (op.run k A m)

/-- The expression `sysSettings.gearTeeth*sysSettings.chainPitch` of cases 13 and
14, evaluated on a settings record: the `byte` operand is promoted and
converted to `float`, the product is a `float` product. -/
def combinedPitch (A : FloatOps) (s : settings_t) : F32 :=
  A.mul (A.ofByte s.gearTeeth) s.chainPitch

/-- The exact decimal value of the constant expression `(2.0 * 3.14159)` of cases
13 and 14, before it is rounded to a `float`. -/
def twoPiLiteral : ℚ := 2.0 * 3.14159

/-! ## Sample data -/

/-- A sample build: schema version 1, marker byte 56, position-lost bit 4. -/
def sampleConfig : Config := ⟨1, 56, 4⟩

/-- An erased EEPROM: every cell reads `0xFF`. -/
def erasedEEPROM : EEPROMClass := fun _ => 255

/-- The machine at power-up with the given EEPROM content: the globals are
zero-initialised and nothing has happened yet. -/
def powerUp (e : EEPROMClass) : Machine where
  sysSettings := settings_t.ofBytes (List.replicate 129 0)
  sysSteps := ⟨0, 0, 0, 0⟩
  systemRtExecAlarm := 0
  EEPROM := e
  sys := ⟨0, false, false⟩
  kinematics_R := 0
  trace := []

/-- A settings record that differs from the defaults: the default record with
`machineWidth` set to 2500.0. -/
def customSettings : settings_t :=
  { defaultSettings sampleConfig with machineWidth := 0x451c4000 }

/-- The EEPROM left by `settingsSaveToEEprom` when `sysSettings` is
`customSettings`, starting from an erased EEPROM. -/
def customImage : EEPROMClass :=
  (settingsSaveToEEprom sampleConfig
    { powerUp erasedEEPROM with sysSettings := customSettings }).EEPROM

/-- A sample interpretation of the `float` operations, used only to instantiate
statements at concrete inputs: conversions keep the low bits of the pattern and
arithmetic acts on patterns.  It is not the arithmetic of the target. -/
def sampleOps : FloatOps where
  toByte x := byteOf x.val
  toInt x := ⟨x.val % 65536, Nat.mod_lt _ (by decide)⟩
  ofByte b := ⟨b.val, Nat.lt_trans b.isLt (by decide)⟩
  mul x y := x * y
  div x y := x / y
  twoPi := 0x40c90fd0

/-- The stored image `customImage` after its version field was corrupted: cell 0
is overwritten with 7. -/
def corruptedImage : EEPROMClass := customImage.write 0 7

/-- An EEPROM of the days before versioning: erased, except that the three
legacy markers at 5, 105 and 205 hold the marker byte of `sampleConfig`. -/
def legacyImage : EEPROMClass := ((erasedEEPROM.write 5 56).write 105 56).write 205 56

/-- An erased EEPROM in which only two of the three legacy markers (5 and 105)
hold the marker byte of `sampleConfig`. -/
def twoMarkersImage : EEPROMClass := (erasedEEPROM.write 5 56).write 105 56

/-- A valid steps record of the sample build. -/
def sampleSteps : settingsStepsV1_t := ⟨100, 200, 300, 56⟩

/-- The EEPROM left by `settingsSaveStepstoEEprom` when `sysSteps` is
`sampleSteps`, starting from an erased EEPROM. -/
def stepsImage : EEPROMClass :=
  (settingsSaveStepstoEEprom sampleConfig
    { powerUp erasedEEPROM with sysSteps := sampleSteps }).EEPROM

/-- The EEPROM after one call of `settingsSaveStepstoEEprom` on an erased EEPROM:
no settings record was ever written to it. -/
def stepsOnlyImage : EEPROMClass :=
  (runAll sampleConfig sampleOps [.saveSteps] (powerUp erasedEEPROM)).EEPROM

/-! ## Codec lemmas -/

theorem wordOf_byteOf (w : Word) : wordOf (byteOf w.val) (byteOf (w.val / 256)) = w := by
  apply Fin.ext
  have h := w.isLt
  simp only [wordOf, byteOf]
  omega

theorem dwordOf_byteOf (d : DWord) :
    dwordOf (byteOf d.val) (byteOf (d.val / 256)) (byteOf (d.val / 65536))
      (byteOf (d.val / 16777216)) = d := by
  apply Fin.ext
  have h := d.isLt
  simp only [dwordOf, byteOf]
  omega

@[simp] theorem takeByte_cons (b : Byte) (r : List Byte) : takeByte (b :: r) = (b, r) := rfl

@[simp] theorem takeBool_boolBytes (b : Bool) (r : List Byte) :
    takeBool (boolBytes b ++ r) = (b, r) := by
  cases b <;> simp [boolBytes, takeBool]

@[simp] theorem takeWord_wordBytes (w : Word) (r : List Byte) :
    takeWord (wordBytes w ++ r) = (w, r) := by
  simp [wordBytes, takeWord, wordOf_byteOf]

@[simp] theorem takeDWord_dwordBytes (d : DWord) (r : List Byte) :
    takeDWord (dwordBytes d ++ r) = (d, r) := by
  simp [dwordBytes, takeDWord, dwordOf_byteOf]

@[simp] theorem length_wordBytes (w : Word) : (wordBytes w).length = 2 := rfl
@[simp] theorem length_dwordBytes (d : DWord) : (dwordBytes d).length = 4 := rfl
@[simp] theorem length_boolBytes (b : Bool) : (boolBytes b).length = 1 := rfl

theorem settingsVersion_ofBytes_toBytes (v : settingsVersion_t) :
    settingsVersion_t.ofBytes (settingsVersion_t.toBytes v) = v := by
  simp [settingsVersion_t.ofBytes, settingsVersion_t.toBytes]

theorem settingsSteps_ofBytes_toBytes (p : settingsStepsV1_t) :
    settingsStepsV1_t.ofBytes (settingsStepsV1_t.toBytes p) = p := by
  simp [settingsStepsV1_t.ofBytes, settingsStepsV1_t.toBytes]

theorem settings_ofBytes_toBytes (s : settings_t) :
    settings_t.ofBytes (settings_t.toBytes s) = s := by
  simp [settings_t.ofBytes, settings_t.toBytes]

theorem settings_t.length_toBytes (s : settings_t) : (settings_t.toBytes s).length = 129 := by
  simp [settings_t.toBytes]

@[simp] theorem size_F32 : Storable.size F32 = 4 := rfl
@[simp] theorem size_settingsVersion_t : Storable.size settingsVersion_t = 3 := rfl
@[simp] theorem size_settingsStepsV1_t : Storable.size settingsStepsV1_t = 13 := rfl
@[simp] theorem size_settings_t : Storable.size settings_t = 129 := rfl

theorem lawful_F32 : Storable.Lawful F32 :=
  ⟨fun _ => rfl, fun d => by
    show (takeDWord (dwordBytes d)).1 = d
    have h := takeDWord_dwordBytes d []
    rw [List.append_nil] at h
    rw [h]⟩

theorem lawful_settingsVersion_t : Storable.Lawful settingsVersion_t :=
  ⟨fun _ => rfl, settingsVersion_ofBytes_toBytes⟩

theorem lawful_settingsStepsV1_t : Storable.Lawful settingsStepsV1_t :=
  ⟨fun _ => rfl, settingsSteps_ofBytes_toBytes⟩

theorem lawful_settings_t : Storable.Lawful settings_t :=
  ⟨settings_t.length_toBytes, settings_ofBytes_toBytes⟩

/-! ## EEPROM lemmas -/

theorem EEPROMClass.putBytes_below (e : EEPROMClass) (addr : Nat) (bs : List Byte) (i : Nat)
    (h : i < addr) : e.putBytes addr bs i = e i := by
  induction bs generalizing e addr with
  | nil => rfl
  | cons b bs ih =>
    rw [EEPROMClass.putBytes, ih _ _ (by omega)]
    simp only [EEPROMClass.write]
    rw [if_neg (by omega)]

theorem EEPROMClass.putBytes_above (e : EEPROMClass) (addr : Nat) (bs : List Byte) (i : Nat)
    (h : addr + bs.length ≤ i) : e.putBytes addr bs i = e i := by
  induction bs generalizing e addr with
  | nil => rfl
  | cons b bs ih =>
    rw [List.length_cons] at h
    rw [EEPROMClass.putBytes, ih _ _ (by omega)]
    simp only [EEPROMClass.write]
    rw [if_neg (by omega)]

theorem EEPROMClass.putBytes_outside (e : EEPROMClass) (addr : Nat) (bs : List Byte) (i : Nat)
    (h : i < addr ∨ addr + bs.length ≤ i) : e.putBytes addr bs i = e i :=
  h.elim (e.putBytes_below addr bs i) (e.putBytes_above addr bs i)

theorem EEPROMClass.getBytes_congr (e e' : EEPROMClass) (addr n : Nat)
    (h : ∀ i, addr ≤ i → i < addr + n → e i = e' i) :
    e.getBytes addr n = e'.getBytes addr n := by
  induction n generalizing addr with
  | zero => rfl
  | succ n ih =>
    rw [EEPROMClass.getBytes, EEPROMClass.getBytes, h addr (Nat.le_refl _) (by omega),
      ih (addr + 1) (fun i h1 h2 => h i (by omega) (by omega))]

theorem EEPROMClass.getBytes_putBytes (e : EEPROMClass) (addr : Nat) (bs : List Byte) :
    (e.putBytes addr bs).getBytes addr bs.length = bs := by
  induction bs generalizing e addr with
  | nil => rfl
  | cons b bs ih =>
    rw [List.length_cons, EEPROMClass.getBytes, EEPROMClass.putBytes, ih,
      EEPROMClass.putBytes_below _ _ _ _ (Nat.lt_succ_self addr)]
    simp [EEPROMClass.write]

theorem EEPROMClass.get_put {α : Type} [Storable α] (hα : Storable.Lawful α) (e : EEPROMClass)
    (addr : Nat) (t : α) : (e.put addr t).get α addr = t := by
  unfold EEPROMClass.get EEPROMClass.put
  rw [← hα.1 t, EEPROMClass.getBytes_putBytes, hα.2]

theorem EEPROMClass.get_put_disjoint (α : Type) {β : Type} [Storable α] [Storable β]
    (hβ : Storable.Lawful β) (e : EEPROMClass) (a b : Nat) (t : β)
    (h : a + Storable.size α ≤ b ∨ b + Storable.size β ≤ a) :
    (e.put b t).get α a = e.get α a := by
  unfold EEPROMClass.get EEPROMClass.put
  rw [EEPROMClass.getBytes_congr _ e]
  intro i h1 h2
  apply EEPROMClass.putBytes_outside
  rw [hβ.1 t]
  omega

theorem EEPROMClass.put_outside {β : Type} [Storable β] (hβ : Storable.Lawful β)
    (e : EEPROMClass) (b : Nat) (t : β) (i : Nat) (h : i < b ∨ b + Storable.size β ≤ i) :
    e.put b t i = e i := by
  unfold EEPROMClass.put
  apply EEPROMClass.putBytes_outside
  rw [hβ.1 t]
  exact h

/-! ## Lemmas on the trace and the alarm bits -/

theorem newTrace_of_append (m m1 : Machine) (t : List Effect) (h : m1.trace = m.trace ++ t) :
    newTrace m m1 = t := by
  simp only [newTrace, h, List.drop_left]

theorem lor_and_right (a b : Nat) : (a ||| b) &&& b = b := by
  apply Nat.eq_of_testBit_eq
  intro i
  rw [Nat.testBit_and, Nat.testBit_or]
  cases a.testBit i <;> cases b.testBit i <;> rfl

/-! ## Lemmas on saving and loading the settings -/

theorem settingsSaveToEEprom_sysSettings (k : Config) (m : Machine) :
    (settingsSaveToEEprom k m).sysSettings = m.sysSettings := by
  simp only [settingsSaveToEEprom, Machine.eepromPut]

theorem settingsSaveToEEprom_EEPROM (k : Config) (m : Machine) :
    (settingsSaveToEEprom k m).EEPROM =
      (m.EEPROM.put 0 (⟨k.SETTINGSVERSION, k.EEPROMVALIDDATA⟩ : settingsVersion_t)).put 40
        m.sysSettings := by
  simp only [settingsSaveToEEprom, Machine.eepromPut]

theorem settingsSaveToEEprom_trace (k : Config) (m : Machine) :
    (settingsSaveToEEprom k m).trace = m.trace ++ [.eepromPut 0 3, .eepromPut 40 129] := by
  simp only [settingsSaveToEEprom, Machine.eepromPut, List.append_assoc, List.singleton_append]
  rfl

theorem settingsSaveToEEprom_version (k : Config) (m : Machine) :
    (settingsSaveToEEprom k m).EEPROM.get settingsVersion_t 0
      = ⟨k.SETTINGSVERSION, k.EEPROMVALIDDATA⟩ := by
  have h : 0 + Storable.size settingsVersion_t ≤ 40 ∨ 40 + Storable.size settings_t ≤ 0 :=
    Or.inl (by decide)
  rw [settingsSaveToEEprom_EEPROM,
    EEPROMClass.get_put_disjoint settingsVersion_t lawful_settings_t _ 0 40 _ h,
    EEPROMClass.get_put lawful_settingsVersion_t]

theorem settingsSaveToEEprom_settings (k : Config) (m : Machine) :
    (settingsSaveToEEprom k m).EEPROM.get settings_t 40 = m.sysSettings := by
  rw [settingsSaveToEEprom_EEPROM, EEPROMClass.get_put lawful_settings_t]

theorem versionValid_mk (k : Config) :
    versionValid k ⟨k.SETTINGSVERSION, k.EEPROMVALIDDATA⟩ = true := by
  simp [versionValid]

theorem versionValid_eq_false (k : Config) (v : settingsVersion_t)
    (h : v.settingsVersion ≠ k.SETTINGSVERSION ∨ v.eepromValidData ≠ k.EEPROMVALIDDATA) :
    versionValid k v = false := by
  rcases h with h | h <;> simp [versionValid, h]

theorem settingsLoadFromEEprom_sysSettings (k : Config) (m : Machine) :
    (settingsLoadFromEEprom k m).sysSettings =
      if versionValid k (m.EEPROM.get settingsVersion_t 0) then m.EEPROM.get settings_t 40
      else defaultSettings k := by
  simp only [settingsLoadFromEEprom, Machine.eepromGet, settingsReset, Machine.log]
  split <;> simp only

theorem settingsLoad_after_Save (k : Config) (m : Machine) :
    (settingsLoadFromEEprom k (settingsSaveToEEprom k m)).sysSettings = m.sysSettings := by
  rw [settingsLoadFromEEprom_sysSettings, settingsSaveToEEprom_version,
    settingsSaveToEEprom_settings, versionValid_mk, if_pos rfl]

theorem settingsLoad_of_saved (k : Config) (m m1 : Machine)
    (h : m1.EEPROM = (settingsSaveToEEprom k m).EEPROM) :
    (settingsLoadFromEEprom k m1).sysSettings = m.sysSettings := by
  rw [settingsLoadFromEEprom_sysSettings, h, settingsSaveToEEprom_version,
    settingsSaveToEEprom_settings, versionValid_mk, if_pos rfl]

theorem settingsLoadStepsFromEEprom_sysSettings (k : Config) (m : Machine) :
    (settingsLoadStepsFromEEprom k m).sysSettings = defaultSettings k := by
  simp only [settingsLoadStepsFromEEprom, legacyMarkersPresent, Machine.eepromGet,
    Machine.eepromRead, settingsReset, Machine.log, Machine.raisePositionLost]
  repeat' split
  all_goals simp only

theorem settingsInit_sysSettings (k : Config) (m : Machine) :
    (settingsInit k m).sysSettings = defaultSettings k :=
  settingsLoadStepsFromEEprom_sysSettings k _

/-! ## Lemmas on the steps loader, branch by branch -/

/-- The steps loader when the version record is valid and the stored steps
record carries the marker. -/
theorem settingsLoadSteps_adopt (k : Config) (m : Machine)
    (hv : versionValid k (m.EEPROM.get settingsVersion_t 0) = true)
    (hs : (m.EEPROM.get settingsStepsV1_t 10).eepromValidData = k.EEPROMVALIDDATA) :
    (settingsLoadStepsFromEEprom k m).sysSteps = m.EEPROM.get settingsStepsV1_t 10 ∧
    (settingsLoadStepsFromEEprom k m).systemRtExecAlarm = m.systemRtExecAlarm ∧
    (settingsLoadStepsFromEEprom k m).EEPROM = m.EEPROM ∧
    (settingsLoadStepsFromEEprom k m).trace = m.trace ++ [.eepromGet 0 3, .eepromGet 10 13] := by
  simp only [settingsLoadStepsFromEEprom, Machine.eepromGet, settingsReset, Machine.log, hv, hs,
    if_true, List.append_assoc, List.singleton_append, true_and]
  rfl

/-- The steps loader when the version record is valid and the stored steps
record does not carry the marker. -/
theorem settingsLoadSteps_reject (k : Config) (m : Machine)
    (hv : versionValid k (m.EEPROM.get settingsVersion_t 0) = true)
    (hs : (m.EEPROM.get settingsStepsV1_t 10).eepromValidData ≠ k.EEPROMVALIDDATA) :
    (settingsLoadStepsFromEEprom k m).sysSteps = m.sysSteps ∧
    (settingsLoadStepsFromEEprom k m).systemRtExecAlarm
      = m.systemRtExecAlarm ||| k.ALARM_POSITION_LOST ∧
    (settingsLoadStepsFromEEprom k m).EEPROM = m.EEPROM ∧
    (settingsLoadStepsFromEEprom k m).trace = m.trace ++ [.eepromGet 0 3, .eepromGet 10 13] := by
  simp only [settingsLoadStepsFromEEprom, Machine.eepromGet, settingsReset, Machine.log, hv, hs,
    if_true, if_false, Machine.raisePositionLost, List.append_assoc, List.singleton_append,
    true_and]
  rfl

/-- The steps loader when the version record is not valid and all three legacy
markers are present: the legacy branch. -/
theorem settingsLoadSteps_legacy (k : Config) (m : Machine)
    (hv : versionValid k (m.EEPROM.get settingsVersion_t 0) = false)
    (h5 : m.EEPROM 5 = k.EEPROMVALIDDATA) (h105 : m.EEPROM 105 = k.EEPROMVALIDDATA)
    (h205 : m.EEPROM 205 = k.EEPROMVALIDDATA) :
    (settingsLoadStepsFromEEprom k m).sysSteps = m.sysSteps ∧
    (settingsLoadStepsFromEEprom k m).systemRtExecAlarm = m.systemRtExecAlarm ∧
    (settingsLoadStepsFromEEprom k m).EEPROM = m.EEPROM ∧
    (settingsLoadStepsFromEEprom k m).trace = m.trace ++
      [.eepromGet 0 3, .eepromRead 5, .eepromRead 105, .eepromRead 205,
       .eepromGet 9 4, .eepromGet 109 4, .eepromGet 209 4] := by
  simp only [settingsLoadStepsFromEEprom, legacyMarkersPresent, Machine.eepromGet,
    Machine.eepromRead, settingsReset, Machine.log, hv, h5, h105, h205, if_true,
    decide_True, List.append_assoc, List.singleton_append, true_and]
  simp

/-- The steps loader when the version record is not valid and some legacy marker
is missing. -/
theorem settingsLoadSteps_lost (k : Config) (m : Machine)
    (hv : versionValid k (m.EEPROM.get settingsVersion_t 0) = false)
    (hm : ¬ (m.EEPROM 5 = k.EEPROMVALIDDATA ∧ m.EEPROM 105 = k.EEPROMVALIDDATA ∧
      m.EEPROM 205 = k.EEPROMVALIDDATA)) :
    (settingsLoadStepsFromEEprom k m).sysSteps = m.sysSteps ∧
    (settingsLoadStepsFromEEprom k m).systemRtExecAlarm
      = m.systemRtExecAlarm ||| k.ALARM_POSITION_LOST ∧
    (settingsLoadStepsFromEEprom k m).EEPROM = m.EEPROM ∧
    ∃ t, (settingsLoadStepsFromEEprom k m).trace = m.trace ++ t ∧
      ∀ e ∈ t, e = .eepromGet 0 3 ∨ e = .eepromRead 5 ∨ e = .eepromRead 105 ∨
        e = .eepromRead 205 := by
  by_cases h5 : m.EEPROM 5 = k.EEPROMVALIDDATA
  · by_cases h105 : m.EEPROM 105 = k.EEPROMVALIDDATA
    · have h205 : m.EEPROM 205 ≠ k.EEPROMVALIDDATA := fun h => hm ⟨h5, h105, h⟩
      simp only [settingsLoadStepsFromEEprom, legacyMarkersPresent, Machine.eepromGet,
        Machine.eepromRead, settingsReset, Machine.log, hv, h5, h105, h205, if_true,
        Machine.raisePositionLost, List.append_assoc, List.singleton_append, true_and]
      simp
    · simp only [settingsLoadStepsFromEEprom, legacyMarkersPresent, Machine.eepromGet,
        Machine.eepromRead, settingsReset, Machine.log, hv, h5, h105, if_true,
        Machine.raisePositionLost, List.append_assoc, List.singleton_append, true_and]
      simp
  · simp only [settingsLoadStepsFromEEprom, legacyMarkersPresent, Machine.eepromGet,
      Machine.eepromRead, settingsReset, Machine.log, hv, h5,
      Machine.raisePositionLost, List.append_assoc, List.singleton_append, true_and]
    simp

theorem settingsLoadSteps_legacy_trace (k : Config) (m : Machine)
    (hv : versionValid k (m.EEPROM.get settingsVersion_t 0) = false)
    (h5 : m.EEPROM 5 = k.EEPROMVALIDDATA) (h105 : m.EEPROM 105 = k.EEPROMVALIDDATA)
    (h205 : m.EEPROM 205 = k.EEPROMVALIDDATA) :
    newTrace m (settingsLoadStepsFromEEprom k m) =
      [.eepromGet 0 3, .eepromRead 5, .eepromRead 105, .eepromRead 205,
       .eepromGet 9 4, .eepromGet 109 4, .eepromGet 209 4] :=
  newTrace_of_append _ _ _ (settingsLoadSteps_legacy k m hv h5 h105 h205).2.2.2

/-! ## Lemmas on the dispatcher -/

theorem settingsSwitch_default (A : FloatOps) (parameter : Byte) (value : F32) (m : Machine)
    (h : 37 ≤ parameter.val) : settingsSwitch A parameter value m = none := by
  unfold settingsSwitch
  split <;> first | rfl | omega

theorem settingsSwitch_frame (A : FloatOps) (parameter : Byte) (value : F32) (m : Machine)
    (h : parameter.val ≤ 36) :
    ∃ m1, settingsSwitch A parameter value m = some m1 ∧ m1.EEPROM = m.EEPROM ∧
      m1.sysSteps = m.sysSteps ∧ m1.systemRtExecAlarm = m.systemRtExecAlarm := by
  obtain ⟨n, hn⟩ := parameter
  simp only at h
  interval_cases n <;> exact ⟨_, rfl, rfl, rfl, rfl⟩

theorem settingsSwitch_fields (A : FloatOps) (parameter : Byte) (value : F32) (m : Machine)
    (h : parameter.val ≤ 36) :
    ∃ m1, settingsSwitch A parameter value m = some m1 ∧
      m1.sysSettings.fields
        = List.modify (FieldVal.assign A value) parameter.val m.sysSettings.fields := by
  obtain ⟨n, hn⟩ := parameter
  simp only at h
  interval_cases n <;> exact ⟨_, rfl, rfl⟩

theorem settingsSwitch_field (A : FloatOps) (parameter : Byte) (value : F32) (m : Machine)
    (h : parameter.val ≤ 36) (j : Nat) :
    ∃ m1, settingsSwitch A parameter value m = some m1 ∧
      m1.sysSettings.field j =
        if j = parameter.val then (m.sysSettings.field j).map (FieldVal.assign A value)
        else m.sysSettings.field j := by
  obtain ⟨m1, h1, h2⟩ := settingsSwitch_fields A parameter value m h
  refine ⟨m1, h1, ?_⟩
  unfold settings_t.field
  rw [h2, List.getElem?_modify]
  by_cases hj : j = parameter.val
  · rw [if_pos hj, hj]
    cases m.sysSettings.fields[parameter.val]? <;> simp
  · rw [if_neg hj]
    have hj' : ¬ parameter.val = j := fun e => hj e.symm
    cases m.sysSettings.fields[j]? <;> simp [hj']

theorem settings_t.ext_field (s t : settings_t) (h : ∀ j, s.field j = t.field j) : s = t := by
  have hf : s.fields = t.fields := List.ext_getElem? h
  cases s; cases t
  simpa [settings_t.fields] using hf

theorem settingsStoreGlobalSetting_of_some (k : Config) (A : FloatOps) (parameter : Byte)
    (value : F32) (m m1 : Machine) (h : settingsSwitch A parameter value m = some m1) :
    settingsStoreGlobalSetting k A parameter value m = (.STATUS_OK, settingsSaveToEEprom k m1) := by
  simp only [settingsStoreGlobalSetting, h]

theorem settingsSwitch_pid (A : FloatOps) (parameter : Byte) (value : F32) (m : Machine)
    (h1 : 21 ≤ parameter.val) (h2 : parameter.val ≤ 28) :
    ∃ m1, settingsSwitch A parameter value m = some m1 ∧
      m1.sysSettings = pidSwitch parameter.val value m.sysSettings ∧
      m1.trace = m.trace ++
        [.setPIDValues .leftAxis m1.sysSettings.KpPos m1.sysSettings.KiPos m1.sysSettings.KdPos
           m1.sysSettings.propWeightPos m1.sysSettings.KpV m1.sysSettings.KiV m1.sysSettings.KdV
           m1.sysSettings.propWeightV,
         .setPIDValues .rightAxis m1.sysSettings.KpPos m1.sysSettings.KiPos m1.sysSettings.KdPos
           m1.sysSettings.propWeightPos m1.sysSettings.KpV m1.sysSettings.KiV m1.sysSettings.KdV
           m1.sysSettings.propWeightV] := by
  obtain ⟨n, hn⟩ := parameter
  simp only at h1 h2
  interval_cases n <;> refine ⟨_, rfl, rfl, ?_⟩ <;>
    simp only [Machine.log, List.append_assoc, List.singleton_append]

theorem settingsStoreGlobalSetting_pid (k : Config) (A : FloatOps) (parameter : Byte)
    (value : F32) (m : Machine) (h1 : 21 ≤ parameter.val) (h2 : parameter.val ≤ 28) :
    (settingsStoreGlobalSetting k A parameter value m).2.sysSettings
      = pidSwitch parameter.val value m.sysSettings ∧
    newTrace m (settingsStoreGlobalSetting k A parameter value m).2 =
      horizontalPush (pidSwitch parameter.val value m.sysSettings) ++
        [.eepromPut 0 3, .eepromPut 40 129] := by
  obtain ⟨m1, hs, hset, htr⟩ := settingsSwitch_pid A parameter value m h1 h2
  rw [settingsStoreGlobalSetting_of_some k A parameter value m m1 hs]
  refine ⟨?_, ?_⟩
  · show (settingsSaveToEEprom k m1).sysSettings = _
    rw [settingsSaveToEEprom_sysSettings, hset]
  · apply newTrace_of_append
    show (settingsSaveToEEprom k m1).trace = _
    rw [settingsSaveToEEprom_trace, htr, hset]
    simp only [horizontalPush, pidPush, List.append_assoc, List.cons_append, List.nil_append]

/-! ## Lemmas on the cascades of the dispatcher -/

theorem settingsSaveToEEprom_frame (k : Config) (m : Machine) :
    (settingsSaveToEEprom k m).sysSteps = m.sysSteps ∧
    (settingsSaveToEEprom k m).systemRtExecAlarm = m.systemRtExecAlarm ∧
    (settingsSaveToEEprom k m).sys = m.sys ∧
    (settingsSaveToEEprom k m).kinematics_R = m.kinematics_R := by
  simp only [settingsSaveToEEprom, Machine.eepromPut, and_self]

/-- What `settingsStoreGlobalSetting` leaves when the `switch` ends in the
machine `m1` having performed the interactions `t`. -/
theorem settingsStoreGlobalSetting_after (k : Config) (A : FloatOps) (parameter : Byte)
    (value : F32) (m m1 : Machine) (t : List Effect)
    (h : settingsSwitch A parameter value m = some m1) (ht : m1.trace = m.trace ++ t) :
    (settingsStoreGlobalSetting k A parameter value m).1 = .STATUS_OK ∧
    (settingsStoreGlobalSetting k A parameter value m).2 = settingsSaveToEEprom k m1 ∧
    (settingsStoreGlobalSetting k A parameter value m).2.sysSettings = m1.sysSettings ∧
    (settingsStoreGlobalSetting k A parameter value m).2.sys = m1.sys ∧
    (settingsStoreGlobalSetting k A parameter value m).2.kinematics_R = m1.kinematics_R ∧
    newTrace m (settingsStoreGlobalSetting k A parameter value m).2
      = t ++ [.eepromPut 0 3, .eepromPut 40 129] := by
  rw [settingsStoreGlobalSetting_of_some k A parameter value m m1 h]
  refine ⟨rfl, rfl, settingsSaveToEEprom_sysSettings k m1,
    (settingsSaveToEEprom_frame k m1).2.2.1,
    (settingsSaveToEEprom_frame k m1).2.2.2, ?_⟩
  apply newTrace_of_append
  show (settingsSaveToEEprom k m1).trace = _
  rw [settingsSaveToEEprom_trace, ht, List.append_assoc]

theorem settingsSwitch_geometry (A : FloatOps) (parameter : Byte) (value : F32) (m : Machine)
    (h : parameter.val ≤ 5) :
    settingsSwitch A parameter value m = some
      (({ ({ m with sysSettings := geometrySwitch parameter.val value m.sysSettings }).log
            (.sysWrite .rcvdKinematicSettings) with sys.rcvdKinematicSettings := 1 }.log
          .finalizeMachineSettings).log .recomputeGeometry) := by
  obtain ⟨n, hn⟩ := parameter
  simp only at h
  interval_cases n <;> rfl

theorem settingsSwitch_plain (A : FloatOps) (parameter : Byte) (value : F32) (m : Machine)
    (h : (6 ≤ parameter.val ∧ parameter.val ≤ 11) ∨
      (15 ≤ parameter.val ∧ parameter.val ≤ 18)) :
    ∃ s, settingsSwitch A parameter value m = some { m with sysSettings := s } := by
  obtain ⟨n, hn⟩ := parameter
  simp only at h
  rcases h with ⟨h1, h2⟩ | ⟨h1, h2⟩ <;> interval_cases n <;> exact ⟨_, rfl⟩

theorem settingsSwitch_zPid (A : FloatOps) (parameter : Byte) (value : F32) (m : Machine)
    (h1 : 29 ≤ parameter.val) (h2 : parameter.val ≤ 36) :
    ∃ m1, settingsSwitch A parameter value m = some m1 ∧
      m1.sysSettings = zPidSwitch parameter.val value m.sysSettings ∧
      m1.sys = m.sys ∧ m1.kinematics_R = m.kinematics_R ∧
      m1.trace = m.trace ++
        [.setPIDValues .zAxis m1.sysSettings.zKpPos m1.sysSettings.zKiPos m1.sysSettings.zKdPos
           m1.sysSettings.zPropWeightPos m1.sysSettings.zKpV m1.sysSettings.zKiV
           m1.sysSettings.zKdV m1.sysSettings.zPropWeightV] := by
  obtain ⟨n, hn⟩ := parameter
  simp only at h1 h2
  interval_cases n <;> refine ⟨_, rfl, rfl, rfl, rfl, ?_⟩ <;>
    simp only [Machine.log]

theorem settingsSwitch_gearTeeth (A : FloatOps) (value : F32) (m : Machine) :
    ∃ m1, settingsSwitch A 13 value m = some m1 ∧
      m1.sysSettings = { m.sysSettings with gearTeeth := A.toByte value } ∧
      m1.sys = m.sys ∧
      m1.kinematics_R = A.div (combinedPitch A m1.sysSettings) A.twoPi ∧
      m1.trace = m.trace ++
        [.changePitch .leftAxis (combinedPitch A m1.sysSettings),
         .changePitch .rightAxis (combinedPitch A m1.sysSettings),
         .kinematicsR (A.div (combinedPitch A m1.sysSettings) A.twoPi)] := by
  refine ⟨_, rfl, rfl, rfl, rfl, ?_⟩
  simp only [Machine.log, List.append_assoc, List.singleton_append, combinedPitch]
  rfl

theorem settingsSwitch_chainPitch (A : FloatOps) (value : F32) (m : Machine) :
    ∃ m1, settingsSwitch A 14 value m = some m1 ∧
      m1.sysSettings = { m.sysSettings with chainPitch := value } ∧
      m1.sys = m.sys ∧
      m1.kinematics_R = A.div (combinedPitch A m1.sysSettings) A.twoPi ∧
      m1.trace = m.trace ++
        [.changePitch .leftAxis (combinedPitch A m1.sysSettings),
         .changePitch .rightAxis (combinedPitch A m1.sysSettings),
         .kinematicsR (A.div (combinedPitch A m1.sysSettings) A.twoPi)] := by
  refine ⟨_, rfl, rfl, rfl, rfl, ?_⟩
  simp only [Machine.log, List.append_assoc, List.singleton_append, combinedPitch]
  rfl

theorem settingsSwitch_encoderSteps (A : FloatOps) (value : F32) (m : Machine) :
    ∃ m1, settingsSwitch A 12 value m = some m1 ∧
      m1.sysSettings = { m.sysSettings with encoderSteps := value } ∧
      m1.sys = { m.sys with encoderStepsChanged := true } ∧
      m1.kinematics_R = m.kinematics_R ∧
      m1.trace = m.trace ++
        [.changeEncoderResolution .leftAxis m1.sysSettings.encoderSteps,
         .changeEncoderResolution .rightAxis m1.sysSettings.encoderSteps,
         .sysWrite .encoderStepsChanged] := by
  refine ⟨_, rfl, rfl, rfl, rfl, ?_⟩
  simp only [Machine.log, List.append_assoc, List.singleton_append]
  rfl

theorem settingsSwitch_zEncoderSteps (A : FloatOps) (value : F32) (m : Machine) :
    ∃ m1, settingsSwitch A 20 value m = some m1 ∧
      m1.sysSettings = { m.sysSettings with zEncoderSteps := value } ∧
      m1.sys = { m.sys with zEncoderStepsChanged := true } ∧
      m1.kinematics_R = m.kinematics_R ∧
      m1.trace = m.trace ++
        [.changeEncoderResolution .zAxis m1.sysSettings.zEncoderSteps,
         .sysWrite .zEncoderStepsChanged] := by
  refine ⟨_, rfl, rfl, rfl, rfl, ?_⟩
  simp only [Machine.log, List.append_assoc, List.singleton_append]

theorem zPidSwitch_horizontal (parameter : Nat) (value : F32) (s : settings_t) :
    horizontalPush (zPidSwitch parameter value s) = horizontalPush s := by
  unfold zPidSwitch
  split <;> rfl

/-! ## The constant of the radius computation -/

/-- The constant `(2.0 * 3.14159)` of cases 13 and 14, as a real number, lies
within `6e-6` below `2π`. -/
theorem twoPiLiteral_near_two_pi :
    (twoPiLiteral : ℝ) < 2 * Real.pi ∧ 2 * Real.pi - (twoPiLiteral : ℝ) < 6 / 1000000 := by
  have h1 := Real.pi_gt_d6
  have h2 := Real.pi_lt_d6
  have e : (twoPiLiteral : ℝ) = 6.28318 := by
    unfold twoPiLiteral
    norm_num
  rw [e]
  constructor <;> norm_num at h1 h2 ⊢ <;> linarith

/-! ## Lemmas on the alarm flag, the storage regions and the steps record -/

theorem and_lor_left (a b : Nat) : a &&& (a ||| b) = a := by
  apply Nat.eq_of_testBit_eq
  intro i
  rw [Nat.testBit_and, Nat.testBit_or]
  cases a.testBit i <;> cases b.testBit i <;> rfl

theorem and_eq_left_trans (a b c : Nat) (h1 : a &&& b = a) (h2 : b &&& c = b) :
    a &&& c = a := by
  apply Nat.eq_of_testBit_eq
  intro i
  have e1 := congrArg (fun x => x.testBit i) h1
  have e2 := congrArg (fun x => x.testBit i) h2
  simp only [Nat.testBit_and] at e1 e2
  rw [Nat.testBit_and]
  cases ha : a.testBit i <;> cases hb : b.testBit i <;> cases hc : c.testBit i <;>
    simp_all

theorem settingsReset_alarm (k : Config) (m : Machine) :
    (settingsReset k m).systemRtExecAlarm = m.systemRtExecAlarm := by
  simp only [settingsReset]

theorem settingsLoadFromEEprom_alarm (k : Config) (m : Machine) :
    (settingsLoadFromEEprom k m).systemRtExecAlarm = m.systemRtExecAlarm := by
  simp only [settingsLoadFromEEprom, Machine.eepromGet, settingsReset, Machine.log]
  split <;> simp only

theorem settingsSaveStepstoEEprom_frame (k : Config) (m : Machine) :
    (settingsSaveStepstoEEprom k m).sysSettings = m.sysSettings ∧
    (settingsSaveStepstoEEprom k m).sysSteps = m.sysSteps ∧
    (settingsSaveStepstoEEprom k m).systemRtExecAlarm = m.systemRtExecAlarm ∧
    (settingsSaveStepstoEEprom k m).sys = m.sys ∧
    (settingsSaveStepstoEEprom k m).kinematics_R = m.kinematics_R := by
  simp only [settingsSaveStepstoEEprom, Machine.eepromPut, and_self]

theorem settingsSaveStepstoEEprom_EEPROM (k : Config) (m : Machine) :
    (settingsSaveStepstoEEprom k m).EEPROM =
      (m.EEPROM.put 0 (⟨k.SETTINGSVERSION, k.EEPROMVALIDDATA⟩ : settingsVersion_t)).put 10
        m.sysSteps := by
  simp only [settingsSaveStepstoEEprom, Machine.eepromPut]

theorem settingsSaveStepstoEEprom_trace (k : Config) (m : Machine) :
    (settingsSaveStepstoEEprom k m).trace = m.trace ++ [.eepromPut 0 3, .eepromPut 10 13] := by
  simp only [settingsSaveStepstoEEprom, Machine.eepromPut, List.append_assoc,
    List.singleton_append]
  rfl

theorem settingsLoadStepsFromEEprom_alarm (k : Config) (m : Machine) :
    (settingsLoadStepsFromEEprom k m).systemRtExecAlarm = m.systemRtExecAlarm ∨
    (settingsLoadStepsFromEEprom k m).systemRtExecAlarm
      = m.systemRtExecAlarm ||| k.ALARM_POSITION_LOST := by
  by_cases hv : versionValid k (m.EEPROM.get settingsVersion_t 0) = true
  · by_cases hs : (m.EEPROM.get settingsStepsV1_t 10).eepromValidData = k.EEPROMVALIDDATA
    · exact Or.inl (settingsLoadSteps_adopt k m hv hs).2.1
    · exact Or.inr (settingsLoadSteps_reject k m hv hs).2.1
  · have hv' : versionValid k (m.EEPROM.get settingsVersion_t 0) = false := by
      simpa using hv
    by_cases hm : m.EEPROM 5 = k.EEPROMVALIDDATA ∧ m.EEPROM 105 = k.EEPROMVALIDDATA ∧
        m.EEPROM 205 = k.EEPROMVALIDDATA
    · exact Or.inl (settingsLoadSteps_legacy k m hv' hm.1 hm.2.1 hm.2.2).2.1
    · exact Or.inr (settingsLoadSteps_lost k m hv' hm).2.1

theorem settingsStoreGlobalSetting_alarm (k : Config) (A : FloatOps) (parameter : Byte)
    (value : F32) (m : Machine) :
    (settingsStoreGlobalSetting k A parameter value m).2.systemRtExecAlarm
      = m.systemRtExecAlarm := by
  by_cases h : parameter.val ≤ 36
  · obtain ⟨m1, h1, -, -, h4⟩ := settingsSwitch_frame A parameter value m h
    rw [settingsStoreGlobalSetting_of_some k A parameter value m m1 h1]
    show (settingsSaveToEEprom k m1).systemRtExecAlarm = _
    rw [(settingsSaveToEEprom_frame k m1).2.1, h4]
  · simp only [settingsStoreGlobalSetting,
      settingsSwitch_default A parameter value m (by omega)]

/-- One call of the module keeps every alarm bit that was set. -/
theorem Operation.run_alarm (k : Config) (A : FloatOps) (op : Operation) (m : Machine) :
    m.systemRtExecAlarm &&& (op.run k A m).systemRtExecAlarm = m.systemRtExecAlarm := by
  have keep : ∀ a b : Nat, b = a → a &&& b = a := fun a b e => by rw [e, Nat.and_self]
  have step : ∀ (m : Machine), m.systemRtExecAlarm &&&
      (settingsLoadStepsFromEEprom k m).systemRtExecAlarm = m.systemRtExecAlarm := by
    intro m
    rcases settingsLoadStepsFromEEprom_alarm k m with e | e
    · exact keep _ _ e
    · rw [e, and_lor_left]
  cases op with
  | init =>
    show m.systemRtExecAlarm &&&
      (settingsLoadStepsFromEEprom k (settingsLoadFromEEprom k m)).systemRtExecAlarm = _
    have h := step (settingsLoadFromEEprom k m)
    rw [settingsLoadFromEEprom_alarm] at h
    exact h
  | load => exact keep _ _ (settingsLoadFromEEprom_alarm k m)
  | reset => exact keep _ _ (settingsReset_alarm k m)
  | save => exact keep _ _ (settingsSaveToEEprom_frame k m).2.1
  | saveSteps => exact keep _ _ (settingsSaveStepstoEEprom_frame k m).2.2.1
  | loadSteps => exact step m
  | store parameter value => exact keep _ _ (settingsStoreGlobalSetting_alarm k A parameter value m)

/-- A sequence of calls of the module keeps every alarm bit that was set. -/
theorem runAll_alarm (k : Config) (A : FloatOps) (ops : List Operation) (m : Machine) :
    m.systemRtExecAlarm &&& (runAll k A ops m).systemRtExecAlarm = m.systemRtExecAlarm := by
  induction ops generalizing m with
  | nil => exact Nat.and_self _
  | cons op ops ih =>
    exact and_eq_left_trans _ _ _ (Operation.run_alarm k A op m) (ih (op.run k A m))

theorem settingsSaveToEEprom_outside (k : Config) (m : Machine) (i : Nat)
    (h1 : 3 ≤ i) (h2 : i < 40 ∨ 169 ≤ i) :
    (settingsSaveToEEprom k m).EEPROM i = m.EEPROM i := by
  rw [settingsSaveToEEprom_EEPROM, EEPROMClass.put_outside lawful_settings_t,
    EEPROMClass.put_outside lawful_settingsVersion_t]
  · exact Or.inr (by simpa using h1)
  · rcases h2 with h2 | h2
    · exact Or.inl h2
    · exact Or.inr (by simpa using h2)

theorem settingsSaveStepstoEEprom_outside (k : Config) (m : Machine) (i : Nat)
    (h1 : 3 ≤ i) (h2 : i < 10 ∨ 23 ≤ i) :
    (settingsSaveStepstoEEprom k m).EEPROM i = m.EEPROM i := by
  rw [settingsSaveStepstoEEprom_EEPROM, EEPROMClass.put_outside lawful_settingsStepsV1_t,
    EEPROMClass.put_outside lawful_settingsVersion_t]
  · exact Or.inr (by simpa using h1)
  · rcases h2 with h2 | h2
    · exact Or.inl h2
    · exact Or.inr (by simpa using h2)

theorem settingsSaveStepstoEEprom_version (k : Config) (m : Machine) :
    (settingsSaveStepstoEEprom k m).EEPROM.get settingsVersion_t 0
      = ⟨k.SETTINGSVERSION, k.EEPROMVALIDDATA⟩ := by
  have h : 0 + Storable.size settingsVersion_t ≤ 10 ∨
      10 + Storable.size settingsStepsV1_t ≤ 0 :=
    Or.inl (by decide)
  rw [settingsSaveStepstoEEprom_EEPROM,
    EEPROMClass.get_put_disjoint settingsVersion_t lawful_settingsStepsV1_t _ 0 10 _ h,
    EEPROMClass.get_put lawful_settingsVersion_t]

theorem settingsSaveStepstoEEprom_steps (k : Config) (m : Machine) :
    (settingsSaveStepstoEEprom k m).EEPROM.get settingsStepsV1_t 10 = m.sysSteps := by
  rw [settingsSaveStepstoEEprom_EEPROM, EEPROMClass.get_put lawful_settingsStepsV1_t]

theorem settingsSaveStepstoEEprom_settings (k : Config) (m : Machine) :
    (settingsSaveStepstoEEprom k m).EEPROM.get settings_t 40 = m.EEPROM.get settings_t 40 := by
  have h1 : 40 + Storable.size settings_t ≤ 10 ∨ 10 + Storable.size settingsStepsV1_t ≤ 40 :=
    Or.inr (by decide)
  have h2 : 40 + Storable.size settings_t ≤ 0 ∨ 0 + Storable.size settingsVersion_t ≤ 40 :=
    Or.inr (by decide)
  rw [settingsSaveStepstoEEprom_EEPROM,
    EEPROMClass.get_put_disjoint settings_t lawful_settingsStepsV1_t _ 40 10 _ h1,
    EEPROMClass.get_put_disjoint settings_t lawful_settingsVersion_t _ 40 0 _ h2]

theorem settingsSaveToEEprom_steps (k : Config) (m : Machine) :
    (settingsSaveToEEprom k m).EEPROM.get settingsStepsV1_t 10
      = m.EEPROM.get settingsStepsV1_t 10 := by
  have h1 : 10 + Storable.size settingsStepsV1_t ≤ 40 ∨ 40 + Storable.size settings_t ≤ 10 :=
    Or.inl (by decide)
  have h2 : 10 + Storable.size settingsStepsV1_t ≤ 0 ∨
      0 + Storable.size settingsVersion_t ≤ 10 :=
    Or.inr (by decide)
  rw [settingsSaveToEEprom_EEPROM,
    EEPROMClass.get_put_disjoint settingsStepsV1_t lawful_settings_t _ 10 40 _ h1,
    EEPROMClass.get_put_disjoint settingsStepsV1_t lawful_settingsVersion_t _ 10 0 _ h2]

theorem EEPROMClass.get_congr (α : Type) [Storable α] (e e' : EEPROMClass) (addr : Nat)
    (h : ∀ i, addr ≤ i → i < addr + Storable.size α → e i = e' i) :
    e.get α addr = e'.get α addr := by
  unfold EEPROMClass.get
  rw [EEPROMClass.getBytes_congr e e' addr _ h]

/-! ## Claims C1 to C3: boot, round trip, corruption -/

set_option maxRecDepth 100000 in
/-- C1 (evaluation at the failing input): the EEPROM holds a valid version record
and the record `customSettings` at offset 40, `settingsLoadFromEEprom` alone
loads that record, yet after `settingsInit` the in-memory settings are the
defaults and not the stored record, because `settingsLoadStepsFromEEprom`
calls `settingsReset`. -/
theorem settingsInit_discards_stored_settings :
    versionValid sampleConfig (customImage.get settingsVersion_t 0) = true ∧
    customImage.get settings_t 40 = customSettings ∧
    (settingsLoadFromEEprom sampleConfig (powerUp customImage)).sysSettings = customSettings ∧
    (settingsInit sampleConfig (powerUp customImage)).sysSettings = defaultSettings sampleConfig ∧
    (settingsInit sampleConfig (powerUp customImage)).sysSettings ≠ customSettings := by
  have hv : customImage.get settingsVersion_t 0 = ⟨1, 56⟩ := settingsSaveToEEprom_version _ _
  have hs : customImage.get settings_t 40 = customSettings := settingsSaveToEEprom_settings _ _
  refine ⟨?_, hs, ?_, settingsInit_sysSettings _ _, ?_⟩
  · rw [hv]; decide
  · rw [settingsLoadFromEEprom_sysSettings]
    show (if versionValid sampleConfig (customImage.get settingsVersion_t 0) = true then
      customImage.get settings_t 40 else _) = _
    rw [hv, hs]; decide
  · rw [settingsInit_sysSettings]
    intro h
    exact absurd (congrArg settings_t.machineWidth h) (by decide)

/-- C2: after `settingsSaveToEEprom`, `settingsLoadFromEEprom` run from any
in-memory state on the EEPROM so written (the loader runs at startup, when the
globals no longer hold the saved record) leaves the in-memory settings record
equal to the record that was saved, whatever that record and whatever the
EEPROM held before; in particular reset, save, load ends with the default
record. -/
theorem settingsSave_then_Load (k : Config) (m : Machine) :
    (∀ m1 : Machine, m1.EEPROM = (settingsSaveToEEprom k m).EEPROM →
      (settingsLoadFromEEprom k m1).sysSettings = m.sysSettings) ∧
    (∀ m1 : Machine, m1.EEPROM = (settingsSaveToEEprom k (settingsReset k m)).EEPROM →
      (settingsLoadFromEEprom k m1).sysSettings = defaultSettings k) ∧
    (settingsLoadFromEEprom k (settingsSaveToEEprom k m)).sysSettings = m.sysSettings ∧
    (settingsLoadFromEEprom k (settingsSaveToEEprom k (settingsReset k m))).sysSettings
      = defaultSettings k := by
  have hr : (settingsReset k m).sysSettings = defaultSettings k := by
    simp only [settingsReset]
  refine ⟨fun m1 h => settingsLoad_of_saved k m m1 h, fun m1 h => ?_,
    settingsLoad_of_saved k m _ rfl, ?_⟩
  · rw [settingsLoad_of_saved k (settingsReset k m) m1 h, hr]
  · rw [settingsLoad_of_saved k (settingsReset k m) _ rfl, hr]

set_option maxRecDepth 100000 in
/-- Witness for C2: at power-up, with zero-initialised globals, the loader reads
the record `customSettings` back from the image its save left, and that record
differs from the globals and from the defaults. -/
theorem settingsSave_then_Load_witness :
    (powerUp customImage).EEPROM = (settingsSaveToEEprom sampleConfig
      { powerUp erasedEEPROM with sysSettings := customSettings }).EEPROM ∧
    (settingsLoadFromEEprom sampleConfig (powerUp customImage)).sysSettings = customSettings ∧
    (powerUp customImage).sysSettings ≠ customSettings ∧
    customSettings ≠ defaultSettings sampleConfig :=
  ⟨rfl,
    (settingsSave_then_Load sampleConfig
      { powerUp erasedEEPROM with sysSettings := customSettings }).1 (powerUp customImage) rfl,
    by decide, by decide⟩

/-- C3: when the version record at offset 0 has a schema version other than
`SETTINGSVERSION` or a marker other than `EEPROMVALIDDATA`, `settingsLoadFromEEprom`
leaves exactly the record that `settingsReset` produces, whatever the EEPROM
holds elsewhere and whatever the in-memory record was. -/
theorem settingsLoadFromEEprom_invalid_version (k : Config) (m other : Machine)
    (h : (m.EEPROM.get settingsVersion_t 0).settingsVersion ≠ k.SETTINGSVERSION ∨
      (m.EEPROM.get settingsVersion_t 0).eepromValidData ≠ k.EEPROMVALIDDATA) :
    (settingsLoadFromEEprom k m).sysSettings = (settingsReset k other).sysSettings ∧
    (settingsLoadFromEEprom k m).sysSettings = defaultSettings k := by
  have hd : (settingsReset k other).sysSettings = defaultSettings k := by
    simp only [settingsReset]
  rw [hd, settingsLoadFromEEprom_sysSettings, versionValid_eq_false k _ h]
  simp

set_option maxRecDepth 100000 in
/-- Witness for C3: an image written by `settingsSaveToEEprom` whose version field
was then corrupted loads as the default record, although a different record is
stored at offset 40 and a different record was in memory. -/
theorem settingsLoadFromEEprom_invalid_version_witness :
    (corruptedImage.get settingsVersion_t 0).settingsVersion ≠ sampleConfig.SETTINGSVERSION ∧
    corruptedImage.get settings_t 40 = customSettings ∧
    (settingsLoadFromEEprom sampleConfig
      { powerUp corruptedImage with sysSettings := customSettings }).sysSettings
      = defaultSettings sampleConfig :=
  ⟨by decide, by decide,
    (settingsLoadFromEEprom_invalid_version sampleConfig
      { powerUp corruptedImage with sysSettings := customSettings } (powerUp erasedEEPROM)
      (Or.inl (by decide))).2⟩

/-! ## Claims C4 to C6: the dispatcher -/

/-- C4: for a parameter id from 37 to 255 the dispatcher returns
`STATUS_INVALID_STATEMENT` and the machine is left as it was: settings record,
EEPROM, `sys` flags, `kinematics.R` and the trace (no save, no collaborator
call, no flag write) are unchanged. -/
theorem settingsStoreGlobalSetting_unknown_id (k : Config) (A : FloatOps) (parameter : Byte)
    (value : F32) (m : Machine) (h : 37 ≤ parameter.val) :
    settingsStoreGlobalSetting k A parameter value m = (.STATUS_INVALID_STATEMENT, m) ∧
    newTrace m (settingsStoreGlobalSetting k A parameter value m).2 = [] := by
  have h1 : settingsStoreGlobalSetting k A parameter value m = (.STATUS_INVALID_STATEMENT, m) := by
    simp only [settingsStoreGlobalSetting, settingsSwitch_default A parameter value m h]
  refine ⟨h1, ?_⟩
  rw [h1]
  exact newTrace_of_append m m [] (List.append_nil _).symm

/-- Witness for C4 at id 37. -/
theorem settingsStoreGlobalSetting_unknown_id_witness :
    37 ≤ (37 : Byte).val ∧
    settingsStoreGlobalSetting sampleConfig sampleOps 37 0x42aa0000 (powerUp customImage)
      = (.STATUS_INVALID_STATEMENT, powerUp customImage) :=
  ⟨by decide,
    (settingsStoreGlobalSetting_unknown_id sampleConfig sampleOps 37 0x42aa0000
      (powerUp customImage) (by decide)).1⟩

/-- C5: for a parameter id from 0 to 36 the dispatcher returns `STATUS_OK` after
running `settingsSaveToEEprom` on the machine left by the `switch`; the EEPROM
then holds the version record `(SETTINGSVERSION, EEPROMVALIDDATA)` at offset 0
and the in-memory settings record, as mutated, at offset 40, and
`settingsLoadFromEEprom` run next reproduces that record. -/
theorem settingsStoreGlobalSetting_persists (k : Config) (A : FloatOps) (parameter : Byte)
    (value : F32) (m : Machine) (h : parameter.val ≤ 36) :
    (settingsStoreGlobalSetting k A parameter value m).1 = .STATUS_OK ∧
    (∃ m1, settingsSwitch A parameter value m = some m1 ∧
      (settingsStoreGlobalSetting k A parameter value m).2 = settingsSaveToEEprom k m1 ∧
      (settingsStoreGlobalSetting k A parameter value m).2.sysSettings = m1.sysSettings) ∧
    (settingsStoreGlobalSetting k A parameter value m).2.EEPROM.get settingsVersion_t 0
      = ⟨k.SETTINGSVERSION, k.EEPROMVALIDDATA⟩ ∧
    (settingsStoreGlobalSetting k A parameter value m).2.EEPROM.get settings_t 40
      = (settingsStoreGlobalSetting k A parameter value m).2.sysSettings ∧
    (settingsLoadFromEEprom k (settingsStoreGlobalSetting k A parameter value m).2).sysSettings
      = (settingsStoreGlobalSetting k A parameter value m).2.sysSettings := by
  obtain ⟨m1, h1, -⟩ := settingsSwitch_frame A parameter value m h
  rw [settingsStoreGlobalSetting_of_some k A parameter value m m1 h1]
  refine ⟨rfl, ⟨m1, h1, rfl, settingsSaveToEEprom_sysSettings k m1⟩,
    settingsSaveToEEprom_version k m1, ?_, ?_⟩
  · show (settingsSaveToEEprom k m1).EEPROM.get settings_t 40
      = (settingsSaveToEEprom k m1).sysSettings
    rw [settingsSaveToEEprom_settings, settingsSaveToEEprom_sysSettings]
  · show (settingsLoadFromEEprom k (settingsSaveToEEprom k m1)).sysSettings
      = (settingsSaveToEEprom k m1).sysSettings
    rw [settingsLoad_after_Save, settingsSaveToEEprom_sysSettings]

set_option maxRecDepth 100000 in
/-- Witness for C5: id 6 with value 85.0 on a machine at power-up with an erased
EEPROM returns `STATUS_OK`. -/
theorem settingsStoreGlobalSetting_persists_witness :
    (6 : Byte).val ≤ 36 ∧
    (settingsStoreGlobalSetting sampleConfig sampleOps 6 0x42aa0000
      (powerUp erasedEEPROM)).1 = .STATUS_OK ∧
    (settingsStoreGlobalSetting sampleConfig sampleOps 6 0x42aa0000
      (powerUp erasedEEPROM)).2.EEPROM.get settingsVersion_t 0 = ⟨1, 56⟩ :=
  ⟨by decide,
    (settingsStoreGlobalSetting_persists sampleConfig sampleOps 6 0x42aa0000
      (powerUp erasedEEPROM) (by decide)).1,
    (settingsStoreGlobalSetting_persists sampleConfig sampleOps 6 0x42aa0000
      (powerUp erasedEEPROM) (by decide)).2.2.1⟩

/-- C6: for a parameter id from 0 to 36 the dispatcher assigns `value`, converted
to the member's type, to the member at position `parameter` of the declaration
order of `settings_t`, and every other position, the trailing `eepromValidData`
at position 37 included, keeps its value; the positions are those the claim
names (0 `machineWidth`, 1 `machineHeight`, 6 `sledCG`, 7 `kinematicsType`,
12 `encoderSteps`, 13 `gearTeeth`, 14 `chainPitch`, 21 to 28 the horizontal and
29 to 36 the vertical PID members). -/
theorem settingsStoreGlobalSetting_single_field (k : Config) (A : FloatOps) (parameter : Byte)
    (value : F32) (m : Machine) (h : parameter.val ≤ 36) :
    (∀ j : Nat, (settingsStoreGlobalSetting k A parameter value m).2.sysSettings.field j =
      if j = parameter.val then (m.sysSettings.field j).map (FieldVal.assign A value)
      else m.sysSettings.field j) ∧
    (∀ s : settings_t,
      s.field 0 = some (.float s.machineWidth) ∧ s.field 1 = some (.float s.machineHeight) ∧
      s.field 6 = some (.float s.sledCG) ∧ s.field 7 = some (.byte s.kinematicsType) ∧
      s.field 12 = some (.float s.encoderSteps) ∧ s.field 13 = some (.byte s.gearTeeth) ∧
      s.field 14 = some (.float s.chainPitch) ∧
      s.field 21 = some (.float s.KpPos) ∧ s.field 28 = some (.float s.propWeightV) ∧
      s.field 29 = some (.float s.zKpPos) ∧ s.field 36 = some (.float s.zPropWeightV) ∧
      s.field 37 = some (.byte s.eepromValidData) ∧ s.field 38 = none) := by
  refine ⟨fun j => ?_, fun s => ⟨rfl, rfl, rfl, rfl, rfl, rfl, rfl, rfl, rfl, rfl, rfl, rfl, rfl⟩⟩
  obtain ⟨m1, h1, h2⟩ := settingsSwitch_field A parameter value m h j
  rw [settingsStoreGlobalSetting_of_some k A parameter value m m1 h1]
  show (settingsSaveToEEprom k m1).sysSettings.field j = _
  rw [settingsSaveToEEprom_sysSettings, h2]

/-- Witness for C6: from the default record, id 6 with value 85.0 sets `sledCG`
(position 6) and leaves `kinematicsType` (position 7) at its default. -/
theorem settingsStoreGlobalSetting_single_field_witness :
    (6 : Byte).val ≤ 36 ∧
    (settingsStoreGlobalSetting sampleConfig sampleOps 6 0x42aa0000
      (settingsReset sampleConfig (powerUp erasedEEPROM))).2.sysSettings.field 6
      = some (.float 0x42aa0000) ∧
    (settingsStoreGlobalSetting sampleConfig sampleOps 6 0x42aa0000
      (settingsReset sampleConfig (powerUp erasedEEPROM))).2.sysSettings.field 7
      = some (.byte 1) :=
  ⟨by decide,
    ((settingsStoreGlobalSetting_single_field sampleConfig sampleOps 6 0x42aa0000
      (settingsReset sampleConfig (powerUp erasedEEPROM)) (by decide)).1 6).trans (by decide),
    ((settingsStoreGlobalSetting_single_field sampleConfig sampleOps 6 0x42aa0000
      (settingsReset sampleConfig (powerUp erasedEEPROM)) (by decide)).1 7).trans (by decide)⟩

/-! ## Claims C7 to C9: the steps loader -/

set_option maxRecDepth 100000 in
/-- C7 (counterexample): on an EEPROM whose version record is not valid and whose
three legacy markers are present, `settingsLoadStepsFromEEprom` does not raise
the position-lost bit, whereas on an erased EEPROM it does. -/
theorem settingsLoadSteps_legacy_no_alarm :
    versionValid sampleConfig (legacyImage.get settingsVersion_t 0) = false ∧
    legacyImage 5 = sampleConfig.EEPROMVALIDDATA ∧
    legacyImage 105 = sampleConfig.EEPROMVALIDDATA ∧
    legacyImage 205 = sampleConfig.EEPROMVALIDDATA ∧
    (settingsLoadStepsFromEEprom sampleConfig (powerUp erasedEEPROM)).systemRtExecAlarm
      &&& sampleConfig.ALARM_POSITION_LOST = sampleConfig.ALARM_POSITION_LOST ∧
    ¬ ((settingsLoadStepsFromEEprom sampleConfig (powerUp legacyImage)).sysSteps
        = (powerUp legacyImage).sysSteps ∧
      (settingsLoadStepsFromEEprom sampleConfig (powerUp legacyImage)).systemRtExecAlarm
        &&& sampleConfig.ALARM_POSITION_LOST = sampleConfig.ALARM_POSITION_LOST) := by
  refine ⟨by decide, by decide, by decide, by decide, by decide, ?_⟩
  intro h
  exact absurd h.2 (by decide)

/-- C7 (amended): when the version record is not valid and all three legacy
markers equal `EEPROMVALIDDATA`, `settingsLoadStepsFromEEprom` reads the three
legacy floats, leaves the steps record unchanged and leaves the alarm flag
unchanged. -/
theorem settingsLoadSteps_legacy_branch (k : Config) (m : Machine)
    (hv : versionValid k (m.EEPROM.get settingsVersion_t 0) = false)
    (h5 : m.EEPROM 5 = k.EEPROMVALIDDATA) (h105 : m.EEPROM 105 = k.EEPROMVALIDDATA)
    (h205 : m.EEPROM 205 = k.EEPROMVALIDDATA) :
    (settingsLoadStepsFromEEprom k m).sysSteps = m.sysSteps ∧
    (settingsLoadStepsFromEEprom k m).systemRtExecAlarm = m.systemRtExecAlarm ∧
    newTrace m (settingsLoadStepsFromEEprom k m) =
      [.eepromGet 0 3, .eepromRead 5, .eepromRead 105, .eepromRead 205,
       .eepromGet 9 4, .eepromGet 109 4, .eepromGet 209 4] := by
  obtain ⟨h1, h2, -, h4⟩ := settingsLoadSteps_legacy k m hv h5 h105 h205
  exact ⟨h1, h2, newTrace_of_append _ _ _ h4⟩

set_option maxRecDepth 100000 in
/-- Witness for the amended C7 on the legacy image. -/
theorem settingsLoadSteps_legacy_branch_witness :
    versionValid sampleConfig ((powerUp legacyImage).EEPROM.get settingsVersion_t 0) = false ∧
    (settingsLoadStepsFromEEprom sampleConfig (powerUp legacyImage)).systemRtExecAlarm = 0 :=
  ⟨by decide,
    (settingsLoadSteps_legacy_branch sampleConfig (powerUp legacyImage) (by decide) (by decide)
      (by decide) (by decide)).2.1⟩

/-- C8: when the version record is not valid and some legacy marker differs from
`EEPROMVALIDDATA`, `settingsLoadStepsFromEEprom` reads nothing but the version
record and legacy marker cells, leaves the steps record unchanged and sets the
position-lost bit; and, for every machine, a legacy float is read exactly when
the version record is not valid and all three markers are present. -/
theorem settingsLoadSteps_legacy_gating (k : Config) (m : Machine) :
    (versionValid k (m.EEPROM.get settingsVersion_t 0) = false →
      ¬ (m.EEPROM 5 = k.EEPROMVALIDDATA ∧ m.EEPROM 105 = k.EEPROMVALIDDATA ∧
        m.EEPROM 205 = k.EEPROMVALIDDATA) →
      (settingsLoadStepsFromEEprom k m).sysSteps = m.sysSteps ∧
      (settingsLoadStepsFromEEprom k m).systemRtExecAlarm
        = m.systemRtExecAlarm ||| k.ALARM_POSITION_LOST ∧
      (settingsLoadStepsFromEEprom k m).systemRtExecAlarm &&& k.ALARM_POSITION_LOST
        = k.ALARM_POSITION_LOST ∧
      ∀ e ∈ newTrace m (settingsLoadStepsFromEEprom k m),
        e = .eepromGet 0 3 ∨ e = .eepromRead 5 ∨ e = .eepromRead 105 ∨
          e = .eepromRead 205) ∧
    ((.eepromGet 9 4 ∈ newTrace m (settingsLoadStepsFromEEprom k m) ∨
      .eepromGet 109 4 ∈ newTrace m (settingsLoadStepsFromEEprom k m) ∨
      .eepromGet 209 4 ∈ newTrace m (settingsLoadStepsFromEEprom k m)) ↔
      (versionValid k (m.EEPROM.get settingsVersion_t 0) = false ∧
        m.EEPROM 5 = k.EEPROMVALIDDATA ∧ m.EEPROM 105 = k.EEPROMVALIDDATA ∧
        m.EEPROM 205 = k.EEPROMVALIDDATA)) := by
  have lost : versionValid k (m.EEPROM.get settingsVersion_t 0) = false →
      ¬ (m.EEPROM 5 = k.EEPROMVALIDDATA ∧ m.EEPROM 105 = k.EEPROMVALIDDATA ∧
        m.EEPROM 205 = k.EEPROMVALIDDATA) →
      (settingsLoadStepsFromEEprom k m).sysSteps = m.sysSteps ∧
      (settingsLoadStepsFromEEprom k m).systemRtExecAlarm
        = m.systemRtExecAlarm ||| k.ALARM_POSITION_LOST ∧
      (settingsLoadStepsFromEEprom k m).systemRtExecAlarm &&& k.ALARM_POSITION_LOST
        = k.ALARM_POSITION_LOST ∧
      ∀ e ∈ newTrace m (settingsLoadStepsFromEEprom k m),
        e = .eepromGet 0 3 ∨ e = .eepromRead 5 ∨ e = .eepromRead 105 ∨
          e = .eepromRead 205 := by
    intro hv hm
    obtain ⟨h1, h2, -, t, h4, h5⟩ := settingsLoadSteps_lost k m hv hm
    refine ⟨h1, h2, ?_, ?_⟩
    · rw [h2, lor_and_right]
    · rw [newTrace_of_append _ _ _ h4]; exact h5
  refine ⟨lost, ?_⟩
  constructor
  · intro hin
    by_cases hv : versionValid k (m.EEPROM.get settingsVersion_t 0) = true
    · exfalso
      by_cases hs : (m.EEPROM.get settingsStepsV1_t 10).eepromValidData = k.EEPROMVALIDDATA
      · have ht := newTrace_of_append _ _ _ (settingsLoadSteps_adopt k m hv hs).2.2.2
        rw [ht] at hin
        simp at hin
      · have ht := newTrace_of_append _ _ _ (settingsLoadSteps_reject k m hv hs).2.2.2
        rw [ht] at hin
        simp at hin
    · have hv' : versionValid k (m.EEPROM.get settingsVersion_t 0) = false := by
        simpa using hv
      refine ⟨hv', ?_⟩
      by_contra hm
      have h4 := (lost hv' hm).2.2.2
      rcases hin with hin | hin | hin <;> have h := h4 _ hin <;> simp at h
  · rintro ⟨hv, h5, h105, h205⟩
    rw [(settingsLoadSteps_legacy_trace k m hv h5 h105 h205)]
    simp

set_option maxRecDepth 100000 in
/-- Witness for C8 on an image with only two of the three legacy markers. -/
theorem settingsLoadSteps_legacy_gating_witness :
    versionValid sampleConfig ((powerUp twoMarkersImage).EEPROM.get settingsVersion_t 0) = false ∧
    twoMarkersImage 5 = sampleConfig.EEPROMVALIDDATA ∧
    twoMarkersImage 105 = sampleConfig.EEPROMVALIDDATA ∧
    twoMarkersImage 205 ≠ sampleConfig.EEPROMVALIDDATA ∧
    (settingsLoadStepsFromEEprom sampleConfig (powerUp twoMarkersImage)).systemRtExecAlarm
      = 0 ||| 4 :=
  ⟨by decide, by decide, by decide, by decide,
    ((settingsLoadSteps_legacy_gating sampleConfig (powerUp twoMarkersImage)).1 (by decide)
      (by decide)).2.1⟩

/-- C9: when the version record is valid, `settingsLoadStepsFromEEprom` adopts the
steps record stored at offset 10 and leaves the alarm flag unchanged if that
record carries `EEPROMVALIDDATA`, and otherwise leaves the steps record
unchanged and sets the position-lost bit; whatever the EEPROM holds, the
in-memory steps record changes only when the version record and the stored
steps marker are both valid. -/
theorem settingsLoadSteps_valid_version (k : Config) (m : Machine) :
    (versionValid k (m.EEPROM.get settingsVersion_t 0) = true →
      ((m.EEPROM.get settingsStepsV1_t 10).eepromValidData = k.EEPROMVALIDDATA →
        (settingsLoadStepsFromEEprom k m).sysSteps = m.EEPROM.get settingsStepsV1_t 10 ∧
        (settingsLoadStepsFromEEprom k m).systemRtExecAlarm = m.systemRtExecAlarm) ∧
      ((m.EEPROM.get settingsStepsV1_t 10).eepromValidData ≠ k.EEPROMVALIDDATA →
        (settingsLoadStepsFromEEprom k m).sysSteps = m.sysSteps ∧
        (settingsLoadStepsFromEEprom k m).systemRtExecAlarm
          = m.systemRtExecAlarm ||| k.ALARM_POSITION_LOST ∧
        (settingsLoadStepsFromEEprom k m).systemRtExecAlarm &&& k.ALARM_POSITION_LOST
          = k.ALARM_POSITION_LOST)) ∧
    ((settingsLoadStepsFromEEprom k m).sysSteps ≠ m.sysSteps →
      versionValid k (m.EEPROM.get settingsVersion_t 0) = true ∧
      (m.EEPROM.get settingsStepsV1_t 10).eepromValidData = k.EEPROMVALIDDATA) := by
  constructor
  · intro hv
    constructor
    · intro hs
      exact ⟨(settingsLoadSteps_adopt k m hv hs).1, (settingsLoadSteps_adopt k m hv hs).2.1⟩
    · intro hs
      obtain ⟨h1, h2, -⟩ := settingsLoadSteps_reject k m hv hs
      exact ⟨h1, h2, by rw [h2, lor_and_right]⟩
  · intro hne
    by_cases hv : versionValid k (m.EEPROM.get settingsVersion_t 0) = true
    · refine ⟨hv, ?_⟩
      by_contra hs
      exact hne (settingsLoadSteps_reject k m hv hs).1
    · exfalso
      have hv' : versionValid k (m.EEPROM.get settingsVersion_t 0) = false := by
        simpa using hv
      by_cases hm : m.EEPROM 5 = k.EEPROMVALIDDATA ∧ m.EEPROM 105 = k.EEPROMVALIDDATA ∧
          m.EEPROM 205 = k.EEPROMVALIDDATA
      · exact hne (settingsLoadSteps_legacy k m hv' hm.1 hm.2.1 hm.2.2).1
      · exact hne (settingsLoadSteps_lost k m hv' hm).1

set_option maxRecDepth 100000 in
/-- Witness for C9: the image left by `settingsSaveStepstoEEprom` is adopted at the
next power-up without an alarm. -/
theorem settingsLoadSteps_valid_version_witness :
    versionValid sampleConfig ((powerUp stepsImage).EEPROM.get settingsVersion_t 0) = true ∧
    ((powerUp stepsImage).EEPROM.get settingsStepsV1_t 10).eepromValidData
      = sampleConfig.EEPROMVALIDDATA ∧
    (settingsLoadStepsFromEEprom sampleConfig (powerUp stepsImage)).sysSteps = sampleSteps ∧
    (settingsLoadStepsFromEEprom sampleConfig (powerUp stepsImage)).systemRtExecAlarm = 0 :=
  ⟨by decide, by decide,
    (((settingsLoadSteps_valid_version sampleConfig (powerUp stepsImage)).1 (by decide)).1
      (by decide)).1.trans (by decide),
    (((settingsLoadSteps_valid_version sampleConfig (powerUp stepsImage)).1 (by decide)).1
      (by decide)).2⟩

/-! ## Claim C10: the horizontal PID cascade -/

/-- C10: for a parameter id from 21 to 28 the dispatcher calls `setPIDValues` on
the left and then on the right axis with the eight horizontal PID members of
the settings record as it stands after the write, and then saves; so the calls
with ids 21, 22, ..., 28 and values `v1 .. v8`, started from a record `o`, push
`(v1 .. vi, o(i+1) .. o8)` at the `i`-th call and `(v1 .. v8)` at the last. -/
theorem settingsStoreGlobalSetting_horizontal_pid (k : Config) (A : FloatOps) (m : Machine) :
    (∀ (parameter : Byte) (value : F32), 21 ≤ parameter.val → parameter.val ≤ 28 →
      newTrace m (settingsStoreGlobalSetting k A parameter value m).2 =
        horizontalPush (settingsStoreGlobalSetting k A parameter value m).2.sysSettings ++
          [.eepromPut 0 3, .eepromPut 40 129]) ∧
    (∀ v1 v2 v3 v4 v5 v6 v7 v8 : F32,
      let o := m.sysSettings
      let m1 := (settingsStoreGlobalSetting k A 21 v1 m).2
      let m2 := (settingsStoreGlobalSetting k A 22 v2 m1).2
      let m3 := (settingsStoreGlobalSetting k A 23 v3 m2).2
      let m4 := (settingsStoreGlobalSetting k A 24 v4 m3).2
      let m5 := (settingsStoreGlobalSetting k A 25 v5 m4).2
      let m6 := (settingsStoreGlobalSetting k A 26 v6 m5).2
      let m7 := (settingsStoreGlobalSetting k A 27 v7 m6).2
      let m8 := (settingsStoreGlobalSetting k A 28 v8 m7).2
      newTrace m m1 = pidPush v1 o.KiPos o.KdPos o.propWeightPos o.KpV o.KiV o.KdV o.propWeightV
        ++ [.eepromPut 0 3, .eepromPut 40 129] ∧
      newTrace m1 m2 = pidPush v1 v2 o.KdPos o.propWeightPos o.KpV o.KiV o.KdV o.propWeightV
        ++ [.eepromPut 0 3, .eepromPut 40 129] ∧
      newTrace m2 m3 = pidPush v1 v2 v3 o.propWeightPos o.KpV o.KiV o.KdV o.propWeightV
        ++ [.eepromPut 0 3, .eepromPut 40 129] ∧
      newTrace m3 m4 = pidPush v1 v2 v3 v4 o.KpV o.KiV o.KdV o.propWeightV
        ++ [.eepromPut 0 3, .eepromPut 40 129] ∧
      newTrace m4 m5 = pidPush v1 v2 v3 v4 v5 o.KiV o.KdV o.propWeightV
        ++ [.eepromPut 0 3, .eepromPut 40 129] ∧
      newTrace m5 m6 = pidPush v1 v2 v3 v4 v5 v6 o.KdV o.propWeightV
        ++ [.eepromPut 0 3, .eepromPut 40 129] ∧
      newTrace m6 m7 = pidPush v1 v2 v3 v4 v5 v6 v7 o.propWeightV
        ++ [.eepromPut 0 3, .eepromPut 40 129] ∧
      newTrace m7 m8 = pidPush v1 v2 v3 v4 v5 v6 v7 v8
        ++ [.eepromPut 0 3, .eepromPut 40 129]) := by
  constructor
  · intro parameter value h1 h2
    obtain ⟨hs, ht⟩ := settingsStoreGlobalSetting_pid k A parameter value m h1 h2
    rw [ht, hs]
  · intro v1 v2 v3 v4 v5 v6 v7 v8 o m1 m2 m3 m4 m5 m6 m7 m8
    obtain ⟨s1, t1⟩ := settingsStoreGlobalSetting_pid k A 21 v1 m (by decide) (by decide)
    obtain ⟨s2, t2⟩ := settingsStoreGlobalSetting_pid k A 22 v2 m1 (by decide) (by decide)
    obtain ⟨s3, t3⟩ := settingsStoreGlobalSetting_pid k A 23 v3 m2 (by decide) (by decide)
    obtain ⟨s4, t4⟩ := settingsStoreGlobalSetting_pid k A 24 v4 m3 (by decide) (by decide)
    obtain ⟨s5, t5⟩ := settingsStoreGlobalSetting_pid k A 25 v5 m4 (by decide) (by decide)
    obtain ⟨s6, t6⟩ := settingsStoreGlobalSetting_pid k A 26 v6 m5 (by decide) (by decide)
    obtain ⟨s7, t7⟩ := settingsStoreGlobalSetting_pid k A 27 v7 m6 (by decide) (by decide)
    obtain ⟨s8, t8⟩ := settingsStoreGlobalSetting_pid k A 28 v8 m7 (by decide) (by decide)
    have e1 : m1.sysSettings = pidSwitch 21 v1 o := s1
    have e2 : m2.sysSettings = pidSwitch 22 v2 (pidSwitch 21 v1 o) := by rw [← e1]; exact s2
    have e3 : m3.sysSettings = pidSwitch 23 v3 (pidSwitch 22 v2 (pidSwitch 21 v1 o)) := by
      rw [← e2]; exact s3
    have e4 : m4.sysSettings
        = pidSwitch 24 v4 (pidSwitch 23 v3 (pidSwitch 22 v2 (pidSwitch 21 v1 o))) := by
      rw [← e3]; exact s4
    have e5 : m5.sysSettings = pidSwitch 25 v5
        (pidSwitch 24 v4 (pidSwitch 23 v3 (pidSwitch 22 v2 (pidSwitch 21 v1 o)))) := by
      rw [← e4]; exact s5
    have e6 : m6.sysSettings = pidSwitch 26 v6 (pidSwitch 25 v5
        (pidSwitch 24 v4 (pidSwitch 23 v3 (pidSwitch 22 v2 (pidSwitch 21 v1 o))))) := by
      rw [← e5]; exact s6
    have e7 : m7.sysSettings = pidSwitch 27 v7 (pidSwitch 26 v6 (pidSwitch 25 v5
        (pidSwitch 24 v4 (pidSwitch 23 v3 (pidSwitch 22 v2 (pidSwitch 21 v1 o)))))) := by
      rw [← e6]; exact s7
    refine ⟨?_, ?_, ?_, ?_, ?_, ?_, ?_, ?_⟩
    · exact t1
    · refine t2.trans ?_; rw [e1]; simp only [horizontalPush, pidSwitch]
    · refine t3.trans ?_; rw [e2]; simp only [horizontalPush, pidSwitch]
    · refine t4.trans ?_; rw [e3]; simp only [horizontalPush, pidSwitch]
    · refine t5.trans ?_; rw [e4]; simp only [horizontalPush, pidSwitch]
    · refine t6.trans ?_; rw [e5]; simp only [horizontalPush, pidSwitch]
    · refine t7.trans ?_; rw [e6]; simp only [horizontalPush, pidSwitch]
    · refine t8.trans ?_; rw [e7]; simp only [horizontalPush, pidSwitch]

set_option maxRecDepth 100000 in
/-- Witness for C10: from the default record, id 21 with value 2500.0 pushes the
tuple with the new `KpPos` and the seven default members to both axes. -/
theorem settingsStoreGlobalSetting_horizontal_pid_witness :
    21 ≤ (21 : Byte).val ∧ (21 : Byte).val ≤ 28 ∧
    newTrace (settingsReset sampleConfig (powerUp erasedEEPROM))
      (settingsStoreGlobalSetting sampleConfig sampleOps 21 0x451c4000
        (settingsReset sampleConfig (powerUp erasedEEPROM))).2 =
      pidPush 0x451c4000 0 0x42080000 0x3f800000 0x40e00000 0 0x3e8f5c29 0x3f800000 ++
        [.eepromPut 0 3, .eepromPut 40 129] :=
  ⟨by decide, by decide,
    ((settingsStoreGlobalSetting_horizontal_pid sampleConfig sampleOps
      (settingsReset sampleConfig (powerUp erasedEEPROM))).1 21 0x451c4000 (by decide)
      (by decide)).trans (by decide)⟩

/-! ## Claims C11 to C15: the cascades of the dispatcher -/

/-- C11: for id 13 (gear teeth) and id 14 (chain pitch) the dispatcher, after the
field write, calls `changePitch` on the left and on the right axis with the
product `gearTeeth * chainPitch` of the members as they stand after the write,
assigns that product divided by the constant `(2.0 * 3.14159)` to
`kinematics.R`, saves, and calls nothing on the z axis. -/
theorem settingsStoreGlobalSetting_pitch (k : Config) (A : FloatOps) (value : F32)
    (m : Machine) :
    ((settingsStoreGlobalSetting k A 13 value m).2.sysSettings
        = { m.sysSettings with gearTeeth := A.toByte value } ∧
      newTrace m (settingsStoreGlobalSetting k A 13 value m).2 =
        [.changePitch .leftAxis
           (combinedPitch A (settingsStoreGlobalSetting k A 13 value m).2.sysSettings),
         .changePitch .rightAxis
           (combinedPitch A (settingsStoreGlobalSetting k A 13 value m).2.sysSettings),
         .kinematicsR (A.div
           (combinedPitch A (settingsStoreGlobalSetting k A 13 value m).2.sysSettings) A.twoPi),
         .eepromPut 0 3, .eepromPut 40 129] ∧
      (settingsStoreGlobalSetting k A 13 value m).2.kinematics_R = A.div
        (combinedPitch A (settingsStoreGlobalSetting k A 13 value m).2.sysSettings) A.twoPi ∧
      combinedPitch A (settingsStoreGlobalSetting k A 13 value m).2.sysSettings
        = A.mul (A.ofByte (A.toByte value)) m.sysSettings.chainPitch) ∧
    ((settingsStoreGlobalSetting k A 14 value m).2.sysSettings
        = { m.sysSettings with chainPitch := value } ∧
      newTrace m (settingsStoreGlobalSetting k A 14 value m).2 =
        [.changePitch .leftAxis
           (combinedPitch A (settingsStoreGlobalSetting k A 14 value m).2.sysSettings),
         .changePitch .rightAxis
           (combinedPitch A (settingsStoreGlobalSetting k A 14 value m).2.sysSettings),
         .kinematicsR (A.div
           (combinedPitch A (settingsStoreGlobalSetting k A 14 value m).2.sysSettings) A.twoPi),
         .eepromPut 0 3, .eepromPut 40 129] ∧
      (settingsStoreGlobalSetting k A 14 value m).2.kinematics_R = A.div
        (combinedPitch A (settingsStoreGlobalSetting k A 14 value m).2.sysSettings) A.twoPi ∧
      combinedPitch A (settingsStoreGlobalSetting k A 14 value m).2.sysSettings
        = A.mul (A.ofByte m.sysSettings.gearTeeth) value) := by
  constructor
  · obtain ⟨m1, hs, hset, -, hR, htr⟩ := settingsSwitch_gearTeeth A value m
    obtain ⟨-, -, e1, -, e3, e4⟩ := settingsStoreGlobalSetting_after k A 13 value m m1 _ hs htr
    rw [e1, e3, e4, hR]
    refine ⟨hset, rfl, rfl, ?_⟩
    rw [hset]
    rfl
  · obtain ⟨m1, hs, hset, -, hR, htr⟩ := settingsSwitch_chainPitch A value m
    obtain ⟨-, -, e1, -, e3, e4⟩ := settingsStoreGlobalSetting_after k A 14 value m m1 _ hs htr
    rw [e1, e3, e4, hR]
    refine ⟨hset, rfl, rfl, ?_⟩
    rw [hset]
    rfl

/-- C12: for a parameter id from 0 to 5 the dispatcher writes the selected
geometry member, then assigns 1 to `sys.rcvdKinematicSettings`, then calls
`finalizeMachineSettings`, then `kinematics.recomputeGeometry`, then saves:
each of these happens once and in this order, and no axis object is called. -/
theorem settingsStoreGlobalSetting_geometry (k : Config) (A : FloatOps) (parameter : Byte)
    (value : F32) (m : Machine) (h : parameter.val ≤ 5) :
    (settingsStoreGlobalSetting k A parameter value m).2 =
      settingsSaveToEEprom k
        (({ ({ m with sysSettings := geometrySwitch parameter.val value m.sysSettings }).log
              (.sysWrite .rcvdKinematicSettings) with sys.rcvdKinematicSettings := 1 }.log
            .finalizeMachineSettings).log .recomputeGeometry) ∧
    newTrace m (settingsStoreGlobalSetting k A parameter value m).2 =
      [.sysWrite .rcvdKinematicSettings, .finalizeMachineSettings, .recomputeGeometry,
       .eepromPut 0 3, .eepromPut 40 129] ∧
    (settingsStoreGlobalSetting k A parameter value m).2.sysSettings
      = geometrySwitch parameter.val value m.sysSettings ∧
    (settingsStoreGlobalSetting k A parameter value m).2.sys
      = { m.sys with rcvdKinematicSettings := 1 } ∧
    (settingsStoreGlobalSetting k A parameter value m).2.kinematics_R = m.kinematics_R := by
  have hs := settingsSwitch_geometry A parameter value m h
  have htr : (({ ({ m with sysSettings := geometrySwitch parameter.val value m.sysSettings }).log
      (.sysWrite .rcvdKinematicSettings) with sys.rcvdKinematicSettings := 1 }.log
      .finalizeMachineSettings).log .recomputeGeometry).trace = m.trace ++
      [.sysWrite .rcvdKinematicSettings, .finalizeMachineSettings, .recomputeGeometry] := by
    simp only [Machine.log, List.append_assoc, List.singleton_append]
    rfl
  obtain ⟨-, e0, e1, e2, e3, e4⟩ :=
    settingsStoreGlobalSetting_after k A parameter value m _ _ hs htr
  exact ⟨e0, e4, e1, e2, e3⟩

/-- Witness for C12: id 0 with value 2500.0 from the default record. -/
theorem settingsStoreGlobalSetting_geometry_witness :
    (0 : Byte).val ≤ 5 ∧
    newTrace (settingsReset sampleConfig (powerUp erasedEEPROM))
      (settingsStoreGlobalSetting sampleConfig sampleOps 0 0x451c4000
        (settingsReset sampleConfig (powerUp erasedEEPROM))).2 =
      [.sysWrite .rcvdKinematicSettings, .finalizeMachineSettings, .recomputeGeometry,
       .eepromPut 0 3, .eepromPut 40 129] ∧
    (settingsStoreGlobalSetting sampleConfig sampleOps 0 0x451c4000
      (settingsReset sampleConfig (powerUp erasedEEPROM))).2.sysSettings.machineWidth
      = 0x451c4000 :=
  ⟨by decide,
    (settingsStoreGlobalSetting_geometry sampleConfig sampleOps 0 0x451c4000
      (settingsReset sampleConfig (powerUp erasedEEPROM)) (by decide)).2.1,
    (congrArg settings_t.machineWidth
      (settingsStoreGlobalSetting_geometry sampleConfig sampleOps 0 0x451c4000
        (settingsReset sampleConfig (powerUp erasedEEPROM)) (by decide)).2.2.1).trans
      (by decide)⟩

/-- C13: for id 12 the dispatcher calls `changeEncoderResolution` with the newly
stored `encoderSteps` on the left and on the right axis, not on the z axis, and
sets `sys.encoderStepsChanged`; for id 20 it calls `changeEncoderResolution`
with the newly stored `zEncoderSteps` on the z axis only and sets
`sys.zEncoderStepsChanged`, leaving `sys.encoderStepsChanged` as it was. -/
theorem settingsStoreGlobalSetting_encoder (k : Config) (A : FloatOps) (value : F32)
    (m : Machine) :
    ((settingsStoreGlobalSetting k A 12 value m).2.sysSettings
        = { m.sysSettings with encoderSteps := value } ∧
      newTrace m (settingsStoreGlobalSetting k A 12 value m).2 =
        [.changeEncoderResolution .leftAxis
           (settingsStoreGlobalSetting k A 12 value m).2.sysSettings.encoderSteps,
         .changeEncoderResolution .rightAxis
           (settingsStoreGlobalSetting k A 12 value m).2.sysSettings.encoderSteps,
         .sysWrite .encoderStepsChanged, .eepromPut 0 3, .eepromPut 40 129] ∧
      (settingsStoreGlobalSetting k A 12 value m).2.sys
        = { m.sys with encoderStepsChanged := true }) ∧
    ((settingsStoreGlobalSetting k A 20 value m).2.sysSettings
        = { m.sysSettings with zEncoderSteps := value } ∧
      newTrace m (settingsStoreGlobalSetting k A 20 value m).2 =
        [.changeEncoderResolution .zAxis
           (settingsStoreGlobalSetting k A 20 value m).2.sysSettings.zEncoderSteps,
         .sysWrite .zEncoderStepsChanged, .eepromPut 0 3, .eepromPut 40 129] ∧
      (settingsStoreGlobalSetting k A 20 value m).2.sys
        = { m.sys with zEncoderStepsChanged := true }) := by
  constructor
  · obtain ⟨m1, hs, hset, hsys, -, htr⟩ := settingsSwitch_encoderSteps A value m
    obtain ⟨-, -, e1, e2, -, e4⟩ := settingsStoreGlobalSetting_after k A 12 value m m1 _ hs htr
    rw [e1, e2, e4]
    exact ⟨hset, rfl, hsys⟩
  · obtain ⟨m1, hs, hset, hsys, -, htr⟩ := settingsSwitch_zEncoderSteps A value m
    obtain ⟨-, -, e1, e2, -, e4⟩ := settingsStoreGlobalSetting_after k A 20 value m m1 _ hs htr
    rw [e1, e2, e4]
    exact ⟨hset, rfl, hsys⟩

/-- C14: for a parameter id from 6 to 11 or from 15 to 18 the dispatcher only
writes the member and saves: no collaborator is called, no member of `sys` is
written, and `kinematics.R`, the steps record and the alarm flag keep their
values. -/
theorem settingsStoreGlobalSetting_no_cascade (k : Config) (A : FloatOps) (parameter : Byte)
    (value : F32) (m : Machine)
    (h : (6 ≤ parameter.val ∧ parameter.val ≤ 11) ∨
      (15 ≤ parameter.val ∧ parameter.val ≤ 18)) :
    (settingsStoreGlobalSetting k A parameter value m).2 = settingsSaveToEEprom k
      { m with sysSettings := (settingsStoreGlobalSetting k A parameter value m).2.sysSettings } ∧
    newTrace m (settingsStoreGlobalSetting k A parameter value m).2
      = [.eepromPut 0 3, .eepromPut 40 129] ∧
    (settingsStoreGlobalSetting k A parameter value m).2.sys = m.sys ∧
    (settingsStoreGlobalSetting k A parameter value m).2.kinematics_R = m.kinematics_R ∧
    (settingsStoreGlobalSetting k A parameter value m).2.sysSteps = m.sysSteps ∧
    (settingsStoreGlobalSetting k A parameter value m).2.systemRtExecAlarm
      = m.systemRtExecAlarm := by
  obtain ⟨s, hs⟩ := settingsSwitch_plain A parameter value m h
  have htr : ({ m with sysSettings := s } : Machine).trace = m.trace ++ [] :=
    (List.append_nil _).symm
  obtain ⟨-, e0, e1, e2, e3, e4⟩ :=
    settingsStoreGlobalSetting_after k A parameter value m _ _ hs htr
  have e1' : (settingsStoreGlobalSetting k A parameter value m).2.sysSettings = s := e1
  refine ⟨?_, e4, e2, e3, ?_, ?_⟩
  · rw [e1']; exact e0
  · rw [e0]; exact (settingsSaveToEEprom_frame k _).1
  · rw [e0]; exact (settingsSaveToEEprom_frame k _).2.1

/-- Witness for C14: id 6 with value 85.0 from the default record sets `sledCG`,
saves, and does nothing else. -/
theorem settingsStoreGlobalSetting_no_cascade_witness :
    ((6 ≤ (6 : Byte).val ∧ (6 : Byte).val ≤ 11) ∨
      (15 ≤ (6 : Byte).val ∧ (6 : Byte).val ≤ 18)) ∧
    newTrace (settingsReset sampleConfig (powerUp erasedEEPROM))
      (settingsStoreGlobalSetting sampleConfig sampleOps 6 0x42aa0000
        (settingsReset sampleConfig (powerUp erasedEEPROM))).2
      = [.eepromPut 0 3, .eepromPut 40 129] :=
  ⟨by decide,
    (settingsStoreGlobalSetting_no_cascade sampleConfig sampleOps 6 0x42aa0000
      (settingsReset sampleConfig (powerUp erasedEEPROM)) (by decide)).2.1⟩

/-- C15: for a parameter id from 29 to 36 the dispatcher calls `setPIDValues`
once, on the z axis, with the eight vertical PID members of the settings
record as it stands after the write, and then saves; no horizontal axis is
called and the eight horizontal PID members keep their values. -/
theorem settingsStoreGlobalSetting_vertical_pid (k : Config) (A : FloatOps) (parameter : Byte)
    (value : F32) (m : Machine) (h1 : 29 ≤ parameter.val) (h2 : parameter.val ≤ 36) :
    (settingsStoreGlobalSetting k A parameter value m).2.sysSettings
      = zPidSwitch parameter.val value m.sysSettings ∧
    newTrace m (settingsStoreGlobalSetting k A parameter value m).2 =
      [.setPIDValues .zAxis
         (settingsStoreGlobalSetting k A parameter value m).2.sysSettings.zKpPos
         (settingsStoreGlobalSetting k A parameter value m).2.sysSettings.zKiPos
         (settingsStoreGlobalSetting k A parameter value m).2.sysSettings.zKdPos
         (settingsStoreGlobalSetting k A parameter value m).2.sysSettings.zPropWeightPos
         (settingsStoreGlobalSetting k A parameter value m).2.sysSettings.zKpV
         (settingsStoreGlobalSetting k A parameter value m).2.sysSettings.zKiV
         (settingsStoreGlobalSetting k A parameter value m).2.sysSettings.zKdV
         (settingsStoreGlobalSetting k A parameter value m).2.sysSettings.zPropWeightV,
       .eepromPut 0 3, .eepromPut 40 129] ∧
    horizontalPush (settingsStoreGlobalSetting k A parameter value m).2.sysSettings
      = horizontalPush m.sysSettings ∧
    (settingsStoreGlobalSetting k A parameter value m).2.sys = m.sys := by
  obtain ⟨m1, hs, hset, hsys, -, htr⟩ := settingsSwitch_zPid A parameter value m h1 h2
  obtain ⟨-, -, e1, e2, -, e4⟩ :=
    settingsStoreGlobalSetting_after k A parameter value m m1 _ hs htr
  rw [e1, e2, e4]
  refine ⟨hset, rfl, ?_, hsys⟩
  rw [hset, zPidSwitch_horizontal]

/-- Witness for C15: id 29 with value 2500.0 from the default record pushes the
vertical tuple with the new `zKpPos` to the z axis only. -/
theorem settingsStoreGlobalSetting_vertical_pid_witness :
    29 ≤ (29 : Byte).val ∧ (29 : Byte).val ≤ 36 ∧
    newTrace (settingsReset sampleConfig (powerUp erasedEEPROM))
      (settingsStoreGlobalSetting sampleConfig sampleOps 29 0x451c4000
        (settingsReset sampleConfig (powerUp erasedEEPROM))).2 =
      [.setPIDValues .zAxis 0x451c4000 0 0x42080000 0x3f800000 0x40e00000 0 0x3e8f5c29
         0x3f800000, .eepromPut 0 3, .eepromPut 40 129] :=
  ⟨by decide, by decide,
    (settingsStoreGlobalSetting_vertical_pid sampleConfig sampleOps 29 0x451c4000
      (settingsReset sampleConfig (powerUp erasedEEPROM)) (by decide) (by decide)).2.1.trans
      (by decide)⟩

/-! ## Claims C16 to C19: alarm flag, storage regions, steps round trip -/

/-- C16: every function of the module only adds bits to `systemRtExecAlarm`: each
bit set before a call is set after it, also after any sequence of calls, so
the position-lost bit, once set, stays set. -/
theorem systemRtExecAlarm_sticky (k : Config) (A : FloatOps) :
    (∀ (op : Operation) (m : Machine),
      m.systemRtExecAlarm &&& (op.run k A m).systemRtExecAlarm = m.systemRtExecAlarm) ∧
    (∀ (ops : List Operation) (m : Machine),
      m.systemRtExecAlarm &&& (runAll k A ops m).systemRtExecAlarm = m.systemRtExecAlarm) ∧
    (∀ (ops : List Operation) (m : Machine),
      m.systemRtExecAlarm &&& k.ALARM_POSITION_LOST = k.ALARM_POSITION_LOST →
      (runAll k A ops m).systemRtExecAlarm &&& k.ALARM_POSITION_LOST
        = k.ALARM_POSITION_LOST) := by
  refine ⟨Operation.run_alarm k A, runAll_alarm k A, ?_⟩
  intro ops m h
  have h1 : k.ALARM_POSITION_LOST &&& m.systemRtExecAlarm = k.ALARM_POSITION_LOST := by
    rw [Nat.and_comm]; exact h
  have h2 := and_eq_left_trans _ _ _ h1 (runAll_alarm k A ops m)
  rw [Nat.and_comm]; exact h2

set_option maxRecDepth 100000 in
/-- Witness for C16: the alarm raised by the boot on an erased EEPROM survives a
save of the settings, a save of the steps, a parameter write, a reset and a
second boot. -/
theorem systemRtExecAlarm_sticky_witness :
    (settingsInit sampleConfig (powerUp erasedEEPROM)).systemRtExecAlarm
      &&& sampleConfig.ALARM_POSITION_LOST = sampleConfig.ALARM_POSITION_LOST ∧
    (runAll sampleConfig sampleOps [.save, .saveSteps, .store 6 0x42aa0000, .reset, .init]
      (settingsInit sampleConfig (powerUp erasedEEPROM))).systemRtExecAlarm
      &&& sampleConfig.ALARM_POSITION_LOST = sampleConfig.ALARM_POSITION_LOST :=
  ⟨by decide,
    (systemRtExecAlarm_sticky sampleConfig sampleOps).2.2
      [.save, .saveSteps, .store 6 0x42aa0000, .reset, .init]
      (settingsInit sampleConfig (powerUp erasedEEPROM)) (by decide)⟩

/-- C17: the version record (3 cells) fits in the cells 0 to 9 and the steps
record (13 cells) in the cells 10 to 39; `settingsSaveToEEprom` changes no cell
from 10 to 39, `settingsSaveStepstoEEprom` changes no cell from 40 on and no
in-memory state, and both leave the version record
`(SETTINGSVERSION, EEPROMVALIDDATA)` at offset 0. -/
theorem settingsSave_regions (k : Config) (m : Machine) :
    (0 + Storable.size settingsVersion_t ≤ 10 ∧ 10 + Storable.size settingsStepsV1_t ≤ 40) ∧
    (∀ i, 10 ≤ i → i < 40 → (settingsSaveToEEprom k m).EEPROM i = m.EEPROM i) ∧
    (∀ i, 40 ≤ i → (settingsSaveStepstoEEprom k m).EEPROM i = m.EEPROM i) ∧
    ((settingsSaveStepstoEEprom k m).sysSettings = m.sysSettings ∧
      (settingsSaveStepstoEEprom k m).sysSteps = m.sysSteps ∧
      (settingsSaveStepstoEEprom k m).systemRtExecAlarm = m.systemRtExecAlarm ∧
      (settingsSaveStepstoEEprom k m).sys = m.sys ∧
      (settingsSaveStepstoEEprom k m).kinematics_R = m.kinematics_R) ∧
    (settingsSaveToEEprom k m).EEPROM.get settingsVersion_t 0
      = ⟨k.SETTINGSVERSION, k.EEPROMVALIDDATA⟩ ∧
    (settingsSaveStepstoEEprom k m).EEPROM.get settingsVersion_t 0
      = ⟨k.SETTINGSVERSION, k.EEPROMVALIDDATA⟩ :=
  ⟨⟨by decide, by decide⟩,
    fun i h1 h2 => settingsSaveToEEprom_outside k m i (by omega) (Or.inl h2),
    fun i h => settingsSaveStepstoEEprom_outside k m i (by omega) (Or.inr (by omega)),
    settingsSaveStepstoEEprom_frame k m,
    settingsSaveToEEprom_version k m,
    settingsSaveStepstoEEprom_version k m⟩

set_option maxRecDepth 100000 in
/-- Witness for C17: a save of the settings leaves the stored steps record of
`stepsImage` in place. -/
theorem settingsSave_regions_witness :
    (10 : Nat) ≤ 10 ∧ (10 : Nat) < 40 ∧
    (settingsSaveToEEprom sampleConfig (powerUp stepsImage)).EEPROM 10 = 100 :=
  ⟨by decide, by decide,
    ((settingsSave_regions sampleConfig (powerUp stepsImage)).2.1 10 (by decide)
      (by decide)).trans (by decide)⟩

set_option maxRecDepth 100000 in
/-- C18 (evaluation at the failing input): one call of `settingsSaveStepstoEEprom`
on an erased EEPROM, whose version record is not valid, makes the version
record valid although no settings record was written at offset 40;
`settingsLoadFromEEprom` then adopts the erased cells as the settings record,
which is neither the default record nor a record that was ever saved, and whose
own trailing marker is not `EEPROMVALIDDATA`. -/
theorem settingsLoadFromEEprom_adopts_unwritten :
    versionValid sampleConfig (erasedEEPROM.get settingsVersion_t 0) = false ∧
    Effect.eepromPut 40 129 ∉
      (runAll sampleConfig sampleOps [.saveSteps] (powerUp erasedEEPROM)).trace ∧
    versionValid sampleConfig (stepsOnlyImage.get settingsVersion_t 0) = true ∧
    stepsOnlyImage.get settings_t 40 = erasedEEPROM.get settings_t 40 ∧
    (settingsLoadFromEEprom sampleConfig (powerUp stepsOnlyImage)).sysSettings
      = erasedEEPROM.get settings_t 40 ∧
    (settingsLoadFromEEprom sampleConfig (powerUp stepsOnlyImage)).sysSettings
      ≠ defaultSettings sampleConfig ∧
    (settingsLoadFromEEprom sampleConfig (powerUp stepsOnlyImage)).sysSettings.eepromValidData
      ≠ sampleConfig.EEPROMVALIDDATA := by
  have hv : stepsOnlyImage.get settingsVersion_t 0 = ⟨1, 56⟩ :=
    settingsSaveStepstoEEprom_version sampleConfig (powerUp erasedEEPROM)
  have hs : stepsOnlyImage.get settings_t 40 = erasedEEPROM.get settings_t 40 :=
    settingsSaveStepstoEEprom_settings sampleConfig (powerUp erasedEEPROM)
  have hl : (settingsLoadFromEEprom sampleConfig (powerUp stepsOnlyImage)).sysSettings
      = erasedEEPROM.get settings_t 40 := by
    rw [settingsLoadFromEEprom_sysSettings]
    show (if versionValid sampleConfig (stepsOnlyImage.get settingsVersion_t 0) = true then
      stepsOnlyImage.get settings_t 40 else _) = _
    rw [hv, hs]
    rfl
  refine ⟨by decide, by decide, ?_, hs, hl, ?_, ?_⟩
  · rw [hv]; decide
  · rw [hl]
    intro h
    exact absurd (congrArg settings_t.eepromValidData h) (by decide)
  · rw [hl]
    decide

/-- C19: when the in-memory steps record carries `EEPROMVALIDDATA`,
`settingsSaveStepstoEEprom` followed by `settingsLoadStepsFromEEprom`, run from
any in-memory state on the EEPROM so written, gives back that steps record and
leaves the alarm flag as it was; the same holds when `settingsSaveToEEprom`
runs, from any in-memory state, between the two. -/
theorem settingsSaveSteps_then_Load (k : Config) (m : Machine)
    (hP : m.sysSteps.eepromValidData = k.EEPROMVALIDDATA) :
    ((settingsLoadStepsFromEEprom k (settingsSaveStepstoEEprom k m)).sysSteps = m.sysSteps ∧
      (settingsLoadStepsFromEEprom k (settingsSaveStepstoEEprom k m)).systemRtExecAlarm
        = m.systemRtExecAlarm) ∧
    (∀ m1 : Machine, m1.EEPROM = (settingsSaveStepstoEEprom k m).EEPROM →
      (settingsLoadStepsFromEEprom k m1).sysSteps = m.sysSteps ∧
      (settingsLoadStepsFromEEprom k m1).systemRtExecAlarm = m1.systemRtExecAlarm) ∧
    (∀ m1 m2 : Machine, m1.EEPROM = (settingsSaveStepstoEEprom k m).EEPROM →
      m2.EEPROM = (settingsSaveToEEprom k m1).EEPROM →
      (settingsLoadStepsFromEEprom k m2).sysSteps = m.sysSteps ∧
      (settingsLoadStepsFromEEprom k m2).systemRtExecAlarm = m2.systemRtExecAlarm) := by
  have direct : ∀ m1 : Machine, m1.EEPROM = (settingsSaveStepstoEEprom k m).EEPROM →
      (settingsLoadStepsFromEEprom k m1).sysSteps = m.sysSteps ∧
      (settingsLoadStepsFromEEprom k m1).systemRtExecAlarm = m1.systemRtExecAlarm := by
    intro m1 h1
    have hv : versionValid k (m1.EEPROM.get settingsVersion_t 0) = true := by
      rw [h1, settingsSaveStepstoEEprom_version, versionValid_mk]
    have hs : m1.EEPROM.get settingsStepsV1_t 10 = m.sysSteps := by
      rw [h1, settingsSaveStepstoEEprom_steps]
    obtain ⟨e1, e2, -⟩ := settingsLoadSteps_adopt k m1 hv (by rw [hs]; exact hP)
    exact ⟨e1.trans hs, e2⟩
  refine ⟨?_, direct, ?_⟩
  · obtain ⟨e1, e2⟩ := direct (settingsSaveStepstoEEprom k m) rfl
    exact ⟨e1, e2.trans (settingsSaveStepstoEEprom_frame k m).2.2.1⟩
  · intro m1 m2 h1 h2
    have hv : versionValid k (m2.EEPROM.get settingsVersion_t 0) = true := by
      rw [h2, settingsSaveToEEprom_version, versionValid_mk]
    have hs : m2.EEPROM.get settingsStepsV1_t 10 = m.sysSteps := by
      rw [h2, settingsSaveToEEprom_steps, h1, settingsSaveStepstoEEprom_steps]
    obtain ⟨e1, e2, -⟩ := settingsLoadSteps_adopt k m2 hv (by rw [hs]; exact hP)
    exact ⟨e1.trans hs, e2⟩

set_option maxRecDepth 100000 in
/-- Witness for C19: the steps record `sampleSteps` saved on an erased EEPROM is
read back at the next power-up, also after a save of the settings. -/
theorem settingsSaveSteps_then_Load_witness :
    sampleSteps.eepromValidData = sampleConfig.EEPROMVALIDDATA ∧
    (settingsLoadStepsFromEEprom sampleConfig (powerUp stepsImage)).sysSteps = sampleSteps ∧
    (settingsLoadStepsFromEEprom sampleConfig
      (powerUp (settingsSaveToEEprom sampleConfig (powerUp stepsImage)).EEPROM)).sysSteps
      = sampleSteps :=
  ⟨by decide,
    ((settingsSaveSteps_then_Load sampleConfig
      { powerUp erasedEEPROM with sysSteps := sampleSteps } (by decide)).2.1
      (powerUp stepsImage) rfl).1,
    ((settingsSaveSteps_then_Load sampleConfig
      { powerUp erasedEEPROM with sysSteps := sampleSteps } (by decide)).2.2
      (powerUp stepsImage) (powerUp (settingsSaveToEEprom sampleConfig
        (powerUp stepsImage)).EEPROM) rfl rfl).1⟩

end Settings
